import Mathlib

/-!
Verification of the Patient-Symptoms-Checker client against its
natural-language specification.

The repository is a React/TypeScript application.  The canonical
conversation orchestrator is the third `App` component in
`src/src/App.tsx` (the one with the eight-step `AppStep` union), the
canonical audio recorder is the first component in
`src/src/components/AudioRecorder.tsx`; `src/unnamed/part_000` holds an
earlier recorder variant and `src/unnamed/part_001` an earlier `App`
variant with a containment-based symptom lookup loop.  All of them are
embedded below as pure Lean functions: React `useState` fields become a
state record, event handlers and `useEffect` bodies become a step
function from a state and an event to a new state plus a list of emitted
effects (speech-synthesis actions, alerts, backend requests), and each
`await`ed backend call is split into the request emission and a
completion event carrying the call's result.
-/

/- ---------------- characters and strings ---------------- -/

/-- Model of per-code-point JavaScript `toLowerCase` (the source only ever
feeds it backend-produced symptom labels; `Char.toLower` lowers ASCII). -/
def jsToLower (c : Char) : Char := c.toLower

/-- The character class `[a-z]` of the regex in `cleanedSymptom`. -/
def isAsciiLower (c : Char) : Bool := 'a' ≤ c && c ≤ 'z'

/-- Whitespace as trimmed by `String.prototype.trim` (modelled by the four
ASCII whitespace characters, the only ones the app can encounter). -/
def jsIsSpace (c : Char) : Bool := c = ' ' || c = '\t' || c = '\n' || c = '\r'

/-- `String.prototype.trim`: drop whitespace from both ends. -/
def jsTrim (s : List Char) : List Char :=
  ((s.dropWhile jsIsSpace).reverse.dropWhile jsIsSpace).reverse

/-- `symptom.split('\n')[0]`: everything before the first newline. -/
def firstLine (s : List Char) : List Char := s.takeWhile (fun c => c ≠ '\n')

/-- `firstLine.toLowerCase().trim().replace(/[^a-z]/g, "")` from
`src/src/App.tsx` (the `cleanedSymptom` computation, lines 834-836). -/
def cleanSymptom (raw : List Char) : List Char :=
  (jsTrim ((firstLine raw).map jsToLower)).filter isAsciiLower

/-- `cleanSymptom` on `String`, as the orchestrator uses it. -/
def cleanSymptomStr (raw : String) : String := ⟨cleanSymptom raw.data⟩

/-- The key described by the spec sentence: first line, lowercased, every
character that is not a lowercase letter removed (no mention of a trim). -/
def specSymptomKey (raw : List Char) : List Char :=
  ((firstLine raw).map jsToLower).filter isAsciiLower

/-- JavaScript `!answer.trim()`: the answer is blank after trimming. -/
def jsBlank (a : String) : Bool := (jsTrim a.data).isEmpty

/-- Whether `pre` starts `l` (used to model substring containment). -/
def startsList : List Char → List Char → Bool
  | [], _ => true
  | _ :: _, [] => false
  | a :: pre, b :: l => a = b && startsList pre l

/-- JavaScript `hay.includes needle` on code points. -/
def containsSub (hay needle : List Char) : Bool :=
  (List.range (hay.length + 1)).any (fun i => startsList needle (hay.drop i))

/-- `symptomLower.includes key` from the part_001 lookup loop. -/
def strContains (hay needle : String) : Bool := containsSub hay.data needle.data

/- ---------------- the static follow-up question bank ---------------- -/

def feverQuestions : List String :=
  ["Dear patient, when did you first notice your fever, and has your temperature been consistently high or fluctuating?",
   "Dear patient, are you experiencing any other symptoms like chills, sweating, or body aches?",
   "Dear patient, have you had any recent exposures—such as travel or contact with someone ill—that might explain your fever?"]

def coughingQuestions : List String :=
  ["Dear patient, when did your cough start, and is it persistent or intermittent?",
   "Dear patient, is your cough dry, or are you producing any phlegm? If so, what color is it?",
   "Dear patient, do you have any other breathing difficulties, such as shortness of breath or chest tightness?"]

def headacheQuestions : List String :=
  ["Dear patient, when did your headache begin, and how would you describe its intensity and duration?",
   "Dear patient, is the headache concentrated in one area or more generalized?",
   "Dear patient, are you experiencing nausea, sensitivity to light or sound, or any visual disturbances?"]

def backpainQuestions : List String :=
  ["Dear patient, when did your backpain start, and is it in a specific area such as your lower back?",
   "Dear patient, does the pain get worse with movement or remain constant?",
   "Dear patient, have you engaged in any strenuous activities recently that might have strained your backpain?"]

def toothacheQuestions : List String :=
  ["Dear patient, when did your toothache begin, and is the pain constant or does it come and go?",
   "Dear patient, how would you describe the pain, and does it spread to nearby areas?",
   "Dear patient, have you noticed any other dental issues like gum swelling or increased sensitivity?"]

/-- `staticFollowUpQuestionsMapping` of the canonical `src/src/App.tsx`,
as an association list in declaration order. -/
def staticFollowUpQuestionsMapping : List (String × List String) :=
  [("fever", feverQuestions),
   ("coughing", coughingQuestions),
   ("headache", headacheQuestions),
   ("backpain", backpainQuestions),
   ("toothache", toothacheQuestions)]

/-- `staticFollowUpQuestionsMapping[cleanedSymptom]`: JavaScript object
property access, i.e. exact-key lookup (the literal's keys are distinct). -/
def staticLookup (key : String) : Option (List String) :=
  (staticFollowUpQuestionsMapping.find? (fun p => p.1 = key)).map Prod.snd

/-- `followUpQuestionsMapping` of `src/unnamed/part_001` (note the key
"back pain" contains a space there). -/
def followUpQuestionsMapping : List (String × List String) :=
  [("fever",
    ["When did you first notice your fever, and has your temperature been consistently high or fluctuating?",
     "Are you experiencing any other symptoms like chills, sweating, or body aches?",
     "Have you had any recent exposures—such as travel or contact with someone ill—that might explain your fever?"]),
   ("coughing",
    ["When did your cough start, and is it persistent or intermittent?",
     "Is your cough dry, or are you producing any phlegm? If so, what color is it?",
     "Do you have any other breathing difficulties, such as shortness of breath or chest tightness?"]),
   ("headache",
    ["When did your headache begin, and how would you describe its intensity and duration?",
     "Is the headache concentrated in one area or more generalized?",
     "Are you experiencing nausea, sensitivity to light or sound, or any visual disturbances?"]),
   ("back pain",
    ["When did your back pain start, and is it in a specific area (e.g., lower back)?",
     "Does the pain get worse with movement or remain constant?",
     "Have you done any strenuous activities recently that might have strained your back?"]),
   ("toothache",
    ["When did your toothache begin, and is the pain constant or does it come and go?",
     "How would you describe the pain, and does it spread to nearby areas?",
     "Have you noticed any other dental issues like gum swelling or increased sensitivity?"])]

/-- The `for (const key in followUpQuestionsMapping) { if
(symptomLower.includes(key)) { questions = ...; break; } }` loop of
`src/unnamed/part_001` (lines 121-128), on a generic table. -/
def lookupLoop (table : List (String × List String)) (symptomLower : String) :
    List String :=
  match table with
  | [] => []
  | (key, qs) :: rest =>
    if strContains symptomLower key then qs else lookupLoop rest symptomLower

def part001Lookup (symptomLower : String) : List String :=
  lookupLoop followUpQuestionsMapping symptomLower

/-- The lookup the spec describes, written from the spec's words: the first
table entry, in fixed declaration order, whose key equals or is contained in
the cleaned token wins; no entry means "not found". -/
def specLookupFirstMatch (table : List (String × List String))
    (token : String) : Option (List String) :=
  (table.find? (fun p => p.1 = token || strContains token p.1)).map Prod.snd

/- ---------------- AudioCapture (the recorder components) ---------------- -/

/-- A microphone `MediaStream` handed out by `getUserMedia`. -/
structure MicStream where
  id : Nat
deriving DecidableEq

/-- The mutable fields of the canonical recorder in
`src/src/components/AudioRecorder.tsx` (first component): `isRecording`,
`mediaRecorderRef` (holding its stream), `audioChunksRef`, `timerRef` and
`recordingTime`. -/
structure RecorderState where
  isRecording : Bool
  mediaRecorder : Option MicStream
  audioChunks : List Nat
  timerOn : Bool
  recordingTime : Nat
deriving DecidableEq

/-- Observable actions of a recorder run. `trackStopped` is a
`track.stop()` call on the acquired stream: the only operation that
releases the microphone (a `MediaRecorder.stop()` alone does not). -/
inductive RecEff where
  | logError
  | alertShown (m : String)
  | deviceAcquired (s : MicStream)
  | recorderStarted
  | recorderStopped
  | trackStopped (s : MicStream)
  | takeProduced (chunks : List Nat)
deriving DecidableEq

def micErrMsg : String :=
  "We couldn't access your microphone. Please check your permissions and try again."

def recorderIdle : RecorderState :=
  { isRecording := false, mediaRecorder := none, audioChunks := [],
    timerOn := false, recordingTime := 0 }

/-- `startRecording` of the canonical recorder, with the `getUserMedia`
outcome passed in (`none` models a denied or unavailable microphone: the
`await` throws before any assignment, the `catch` logs and alerts). -/
def startRecording (s : RecorderState) (access : Option MicStream) :
    RecorderState × List RecEff :=
  match access with
  | none => (s, [RecEff.logError, RecEff.alertShown micErrMsg])
  | some st =>
    ({ isRecording := true, mediaRecorder := some st, audioChunks := [],
       timerOn := true, recordingTime := s.recordingTime },
     [RecEff.deviceAcquired st, RecEff.recorderStarted])

/-- `stopRecording` of the canonical recorder, together with the `onstop`
callback it triggers (clear the timer, reset the elapsed time, build the
Blob from the buffered chunks and deliver it).  The stream's tracks are
never stopped here. -/
def stopRecording (s : RecorderState) : RecorderState × List RecEff :=
  if s.mediaRecorder.isSome ∧ s.isRecording then
    ({ s with isRecording := false, timerOn := false, recordingTime := 0 },
     [RecEff.recorderStopped, RecEff.takeProduced s.audioChunks])
  else (s, [])

/-- State of the `src/unnamed/part_000` recorder: it additionally keeps the
finished recording Blob and its object URL for playback. -/
structure P0State where
  isRecording : Bool
  mediaRecorder : Option MicStream
  audioChunks : List Nat
  timerOn : Bool
  recordingTime : Nat
  recordingBlob : Option (List Nat)
  audioUrl : Option Nat
deriving DecidableEq

/-- `startRecording` of the part_000 recorder (also clears the previous
Blob and URL and restarts the timer from zero). -/
def p000Start (s : P0State) (access : Option MicStream) :
    P0State × List RecEff :=
  match access with
  | none => (s, [RecEff.logError])
  | some st =>
    ({ isRecording := true, mediaRecorder := some st, audioChunks := [],
       timerOn := true, recordingTime := 0, recordingBlob := none,
       audioUrl := none },
     [RecEff.deviceAcquired st, RecEff.recorderStarted])

/-- `stopRecording` of the part_000 recorder: stops the `MediaRecorder`,
stops every track of its stream (releasing the microphone), clears the
flag and the timer; its `onstop` stores the Blob and URL without calling
`onRecordingComplete`. -/
def p000Stop (s : P0State) : P0State × List RecEff :=
  match s.mediaRecorder with
  | some st =>
    if s.isRecording then
      ({ s with isRecording := false, timerOn := false,
                recordingBlob := some s.audioChunks, audioUrl := some st.id },
       [RecEff.recorderStopped, RecEff.trackStopped st,
        RecEff.takeProduced s.audioChunks])
    else (s, [])
  | none => (s, [])

/-- How many times a trace releases the microphone. -/
def releaseCount : List RecEff → Nat
  | [] => 0
  | RecEff.trackStopped _ :: r => releaseCount r + 1
  | _ :: r => releaseCount r

/-- Whether the microphone is held after a trace (acquired and not yet
released by a `track.stop()`). -/
def devHeld (l : List RecEff) : Bool :=
  l.foldl
    (fun held e =>
      match e with
      | RecEff.deviceAcquired _ => true
      | RecEff.trackStopped _ => false
      | _ => held)
    false

/-- How many takes a trace delivers. -/
def takeCount : List RecEff → Nat
  | [] => 0
  | RecEff.takeProduced _ :: r => takeCount r + 1
  | _ :: r => takeCount r

/- ---------------- the conversation orchestrator ---------------- -/

/-- The `AppStep` union type of the canonical `src/src/App.tsx`. -/
inductive AppStep where
  | initial
  | recording
  | review
  | followupLoading
  | followup
  | dynamicFollowupLoading
  | dynamicFollowup
  | final
deriving DecidableEq

/-- An audio Blob delivered by the recorder. -/
structure Blob where
  data : List Nat
deriving DecidableEq

/-- One question paired with its answer, as sent to the backend. -/
structure QA where
  question : String
  answer : String
deriving DecidableEq

/-- The body of the `generate_guidelines` request assembled by
`generateGuidelines`. -/
structure GuidelinePayload where
  transcript : String
  key_symptom : String
  follow_up : List QA
deriving DecidableEq

/-- The body of the `generate_followup_questions` request assembled by
`generateFollowupQuestions`. -/
structure FollowUpPayload where
  reviewed_transcript : String
  key_symptom : String
  static_followup : List QA
deriving DecidableEq

/-- All `useState` fields of the canonical `App` component. -/
structure AppState where
  step : AppStep
  recordedBlob : Option Blob
  transcript : String
  editedTranscript : String
  extractedSymptom : String
  staticFollowUpQuestions : List String
  staticFollowUpAnswers : List String
  dynamicFollowUpQuestions : List String
  dynamicFollowUpAnswers : List String
  currentStaticIndex : Nat
  currentDynamicIndex : Nat
  guidelines : String
  audioUrl : String
  loading : Bool
  overlayVisible : Bool
  welcomeSpoken : Bool
  errorMsg : String
deriving DecidableEq

def initState : AppState :=
  { step := AppStep.initial, recordedBlob := none, transcript := "",
    editedTranscript := "", extractedSymptom := "",
    staticFollowUpQuestions := [], staticFollowUpAnswers := [],
    dynamicFollowUpQuestions := [], dynamicFollowUpAnswers := [],
    currentStaticIndex := 0, currentDynamicIndex := 0, guidelines := "",
    audioUrl := "", loading := false, overlayVisible := true,
    welcomeSpoken := false, errorMsg := "" }

/-- Observable side effects of the orchestrator: `speechSynthesis` actions,
window alerts, audio playback and the four backend requests (a request's
completion arrives later as an `Event`). -/
inductive Eff where
  | cancelSpeech
  | speak (text : String)
  | alertShown (m : String)
  | audioPlay (url : String)
  | requestTranscription (b : Blob)
  | requestExtraction (transcript : String)
  | requestFollowUpGen (p : FollowUpPayload)
  | requestGuidelines (p : GuidelinePayload)
deriving DecidableEq

instance {ε α : Type} [DecidableEq ε] [DecidableEq α] :
    DecidableEq (Except ε α) := fun a b =>
  match a, b with
  | Except.ok x, Except.ok y =>
    if h : x = y then isTrue (by rw [h]) else isFalse (by simp [h])
  | Except.error x, Except.error y =>
    if h : x = y then isTrue (by rw [h]) else isFalse (by simp [h])
  | Except.ok _, Except.error _ => isFalse (by simp)
  | Except.error _, Except.ok _ => isFalse (by simp)

/-- The inputs that drive the orchestrator: user actions on the rendered
controls and completions of the in-flight backend calls. -/
inductive Event where
  | overlayClick
  | startClick
  | takeProduced (b : Blob)
  | transcriptionResult (r : Except Unit String)
  | editTranscript (t : String)
  | proceedClick
  | extractionResult (r : Except Unit String)
  | editStaticAnswer (t : String)
  | nextStaticClick
  | dynamicQuestionsResult (r : Except Unit (List String))
  | editDynamicAnswer (t : String)
  | nextDynamicClick
  | guidelinesResult (r : Except Unit (String × String))
  | closeErrorModal
deriving DecidableEq

def welcomeMsg : String :=
  "Dear patient, welcome. We're here to help you feel your best. Please share your symptoms by speaking, and we'll guide you through home care. When you're ready, press the Start Recording button to begin."

def stoppedMsg : String :=
  "Dear patient, your recording has been stopped. We are now processing your message. Please wait a moment."

def reviewMsg : String :=
  "Dear patient, here is your transcribed message. Please review and correct it if necessary. When you're ready, click Proceed to Follow-Up Button to continue."

def prepareMsg : String :=
  "Dear patient, please wait while we prepare your follow-up questions."

def generatingMsg : String :=
  "Dear patient, we are generating additional follow-up questions. Please wait a moment."

def finalMsg : String :=
  "Dear patient, your personalized home care plan is being generated. Please wait a moment."

def transcriptionErrMsg : String :=
  "we couldn't understand your recording. Please try again."

def extractionErrMsg : String :=
  "we had trouble understanding your symptoms. Please try again."

def dynGenErrMsg : String :=
  "we couldn't generate additional follow-up questions. Please try again."

def guidelineErrMsg : String :=
  "we couldn't generate your care guidelines. Please try again."

def answerPrompt : String :=
  "Dear patient, please share your answer before proceeding."

/-- `speakErrorAndRedirect msg` of the canonical variant: cancel speech,
speak the message with the "Dear patient, " prefix (the `errorMsg` state
update is applied by each caller below). -/
def errNarr (msg : String) : List Eff :=
  [Eff.cancelSpeech, Eff.speak ("Dear patient, " ++ msg)]

/-- A JavaScript template-literal array read: a missing index renders as
the string "undefined". -/
def jsIndexStr (l : List String) (i : Nat) : String := l.getD i "undefined"

/-- `arr[i] || ""`: a missing slot (and an empty one) reads as "". -/
def jsOrEmpty (l : List String) (i : Nat) : String := l.getD i ""

/-- `const newAnswers = [...answers]; newAnswers[i] = v`: JavaScript array
index assignment, which pads with holes past the end (holes read back as
"" through `|| ""`). -/
def setPad (l : List String) (i : Nat) (v : String) : List String :=
  if i < l.length then l.set i v
  else l ++ List.replicate (i - l.length) "" ++ [v]

/-- `questions.map((q, i) => ({ question: q, answer: answers[i] || "" }))`. -/
def mkQA : List String → List String → List QA
  | [], _ => []
  | q :: qs, [] => { question := q, answer := "" } :: mkQA qs []
  | q :: qs, a :: ans => { question := q, answer := a } :: mkQA qs ans

/-- `handleNextStaticFollowUp` (src/src/App.tsx lines 865-876): reject with
an alert while the current answer is blank after trimming; otherwise
advance the index, or enter `dynamicFollowupLoading` at the last
question. -/
def handleNextStaticFollowUp (s : AppState) : AppState × List Eff :=
  if jsBlank (jsOrEmpty s.staticFollowUpAnswers s.currentStaticIndex) then
    (s, [Eff.alertShown answerPrompt])
  else if s.currentStaticIndex + 1 < s.staticFollowUpQuestions.length then
    ({ s with currentStaticIndex := s.currentStaticIndex + 1 }, [])
  else
    ({ s with step := AppStep.dynamicFollowupLoading }, [])

/-- `handleNextDynamicFollowUp` (src/src/App.tsx lines 913-924): the same
loop, entering `final` after the last question. -/
def handleNextDynamicFollowUp (s : AppState) : AppState × List Eff :=
  if jsBlank (jsOrEmpty s.dynamicFollowUpAnswers s.currentDynamicIndex) then
    (s, [Eff.alertShown answerPrompt])
  else if s.currentDynamicIndex + 1 < s.dynamicFollowUpQuestions.length then
    ({ s with currentDynamicIndex := s.currentDynamicIndex + 1 }, [])
  else
    ({ s with step := AppStep.final }, [])

/-- The event handlers of the canonical `App`.  Each user event is guarded
by the render condition of the control that raises it, each completion
event by the step that issued the request (the orchestrator keeps at most
one call in flight).  Service failures run `speakErrorAndRedirect`, which
only speaks and fills `errorMsg`. -/
def handle (s : AppState) (e : Event) : AppState × List Eff :=
  match e with
  | Event.overlayClick =>
    if s.overlayVisible then
      if s.welcomeSpoken then ({ s with overlayVisible := false }, [])
      else
        ({ s with overlayVisible := false, welcomeSpoken := true },
         [Eff.speak welcomeMsg])
    else (s, [])
  | Event.startClick =>
    if s.step = AppStep.initial then
      ({ s with step := AppStep.recording }, [Eff.cancelSpeech])
    else (s, [])
  | Event.takeProduced b =>
    if s.step = AppStep.recording then
      ({ s with recordedBlob := some b, loading := true },
       [Eff.speak stoppedMsg, Eff.requestTranscription b])
    else (s, [])
  | Event.transcriptionResult r =>
    if s.step = AppStep.recording ∧ s.loading = true then
      match r with
      | Except.ok t =>
        ({ s with transcript := t, editedTranscript := t,
                  step := AppStep.review, loading := false }, [])
      | Except.error _ =>
        ({ s with errorMsg := transcriptionErrMsg, loading := false },
         errNarr transcriptionErrMsg)
    else (s, [])
  | Event.editTranscript t =>
    if s.step = AppStep.review then ({ s with editedTranscript := t }, [])
    else (s, [])
  | Event.proceedClick =>
    if s.step = AppStep.review ∧ s.loading = false then
      ({ s with step := AppStep.followupLoading, loading := true }, [])
    else (s, [])
  | Event.extractionResult r =>
    if s.step = AppStep.followupLoading ∧ s.loading = true then
      match r with
      | Except.ok raw =>
        let key := cleanSymptomStr raw
        match staticLookup key with
        | some qs =>
          ({ s with extractedSymptom := key, staticFollowUpQuestions := qs,
                    staticFollowUpAnswers := List.replicate qs.length "",
                    currentStaticIndex := 0, step := AppStep.followup,
                    loading := false }, [])
        | none =>
          ({ s with extractedSymptom := key,
                    step := AppStep.dynamicFollowupLoading,
                    loading := false }, [])
      | Except.error _ =>
        ({ s with errorMsg := extractionErrMsg, loading := false },
         errNarr extractionErrMsg)
    else (s, [])
  | Event.editStaticAnswer t =>
    if s.step = AppStep.followup ∧ s.staticFollowUpQuestions ≠ [] then
      ({ s with staticFollowUpAnswers :=
           setPad s.staticFollowUpAnswers s.currentStaticIndex t }, [])
    else (s, [])
  | Event.nextStaticClick =>
    if s.step = AppStep.followup ∧ s.staticFollowUpQuestions ≠ [] then
      handleNextStaticFollowUp s
    else (s, [])
  | Event.dynamicQuestionsResult r =>
    if s.step = AppStep.dynamicFollowupLoading ∧ s.loading = true then
      match r with
      | Except.ok qs =>
        ({ s with dynamicFollowUpQuestions := qs,
                  dynamicFollowUpAnswers := List.replicate qs.length "",
                  currentDynamicIndex := 0, step := AppStep.dynamicFollowup },
         [])
      | Except.error _ =>
        ({ s with errorMsg := dynGenErrMsg }, errNarr dynGenErrMsg)
    else (s, [])
  | Event.editDynamicAnswer t =>
    if s.step = AppStep.dynamicFollowup ∧ s.dynamicFollowUpQuestions ≠ [] then
      ({ s with dynamicFollowUpAnswers :=
           setPad s.dynamicFollowUpAnswers s.currentDynamicIndex t }, [])
    else (s, [])
  | Event.nextDynamicClick =>
    if s.step = AppStep.dynamicFollowup ∧ s.dynamicFollowUpQuestions ≠ [] then
      handleNextDynamicFollowUp s
    else (s, [])
  | Event.guidelinesResult r =>
    if s.step = AppStep.final ∧ s.loading = true then
      match r with
      | Except.ok g =>
        ({ s with guidelines := g.1, audioUrl := g.2, loading := false }, [])
      | Except.error _ =>
        ({ s with errorMsg := guidelineErrMsg, loading := false },
         errNarr guidelineErrMsg)
    else (s, [])
  | Event.closeErrorModal =>
    if s.errorMsg ≠ "" then ({ s with errorMsg := "" }, []) else (s, [])

/-- The `useEffect` playing the guideline narration audio (deps:
`audioUrl`; a falsy URL is skipped). -/
def audioEffect (old s : AppState) : List Eff :=
  if old.audioUrl ≠ s.audioUrl ∧ s.audioUrl ≠ "" then
    [Eff.audioPlay s.audioUrl]
  else []

/-- The `useEffect` narrating the review instructions (deps: `step`). -/
def reviewEffect (old s : AppState) : List Eff :=
  if old.step ≠ s.step ∧ s.step = AppStep.review then
    [Eff.cancelSpeech, Eff.speak reviewMsg]
  else []

/-- The `useEffect` entered on `followupLoading` (deps: `step`,
`editedTranscript`): narrate, then call `extractSymptoms` — the part of
its body after the `await` arrives later as `Event.extractionResult`. -/
def followupLoadingEffect (old s : AppState) : List Eff :=
  if (old.step ≠ s.step ∨ old.editedTranscript ≠ s.editedTranscript) ∧
      s.step = AppStep.followupLoading then
    [Eff.cancelSpeech, Eff.speak prepareMsg,
     Eff.requestExtraction s.editedTranscript]
  else []

/-- The `useEffect` speaking each static follow-up question (deps: `step`,
`currentStaticIndex`, `staticFollowUpQuestions`). -/
def followupNarration (old s : AppState) : List Eff :=
  if (old.step ≠ s.step ∨ old.currentStaticIndex ≠ s.currentStaticIndex ∨
      old.staticFollowUpQuestions ≠ s.staticFollowUpQuestions) ∧
      s.step = AppStep.followup ∧ s.staticFollowUpQuestions ≠ [] then
    [Eff.cancelSpeech,
     Eff.speak ("Dear patient, " ++
       jsIndexStr s.staticFollowUpQuestions s.currentStaticIndex)]
  else []

/-- Whether the `dynamicFollowupLoading` `useEffect` (deps: `step`,
`transcript`, `extractedSymptom`, `staticFollowUpQuestions`,
`staticFollowUpAnswers`) fires on this commit. -/
def fireDynLoading (old s : AppState) : Prop :=
  (old.step ≠ s.step ∨ old.transcript ≠ s.transcript ∨
   old.extractedSymptom ≠ s.extractedSymptom ∨
   old.staticFollowUpQuestions ≠ s.staticFollowUpQuestions ∨
   old.staticFollowUpAnswers ≠ s.staticFollowUpAnswers) ∧
  s.step = AppStep.dynamicFollowupLoading

instance (old s : AppState) : Decidable (fireDynLoading old s) := by
  unfold fireDynLoading; infer_instance

/-- The request body `generateFollowupQuestions(editedTranscript,
extractedSymptom, staticQA)` assembled by the `dynamicFollowupLoading`
effect. -/
def dynLoadingPayload (s : AppState) : FollowUpPayload :=
  { reviewed_transcript := s.editedTranscript,
    key_symptom := s.extractedSymptom,
    static_followup := mkQA s.staticFollowUpQuestions s.staticFollowUpAnswers }

/-- The effects of the `dynamicFollowupLoading` `useEffect`: narrate, then
issue the `FollowUpGeneration` request (its `setLoading(true)` is applied
in `runEffects`; the code after the `await` arrives later as
`Event.dynamicQuestionsResult`). -/
def dynLoadingEffect (old s : AppState) : List Eff :=
  if fireDynLoading old s then
    [Eff.cancelSpeech, Eff.speak generatingMsg,
     Eff.requestFollowUpGen (dynLoadingPayload s)]
  else []

/-- The `useEffect` speaking each dynamic follow-up question (deps: `step`,
`currentDynamicIndex`, `dynamicFollowUpQuestions`). -/
def dynNarration (old s : AppState) : List Eff :=
  if (old.step ≠ s.step ∨ old.currentDynamicIndex ≠ s.currentDynamicIndex ∨
      old.dynamicFollowUpQuestions ≠ s.dynamicFollowUpQuestions) ∧
      s.step = AppStep.dynamicFollowup ∧ s.dynamicFollowUpQuestions ≠ [] then
    [Eff.cancelSpeech,
     Eff.speak ("Dear patient, " ++
       jsIndexStr s.dynamicFollowUpQuestions s.currentDynamicIndex)]
  else []

/-- Whether the `final` `useEffect` (deps: `step`, `transcript`,
`extractedSymptom` and the four question/answer lists) fires. -/
def fireFinal (old s : AppState) : Prop :=
  (old.step ≠ s.step ∨ old.transcript ≠ s.transcript ∨
   old.extractedSymptom ≠ s.extractedSymptom ∨
   old.staticFollowUpQuestions ≠ s.staticFollowUpQuestions ∨
   old.staticFollowUpAnswers ≠ s.staticFollowUpAnswers ∨
   old.dynamicFollowUpQuestions ≠ s.dynamicFollowUpQuestions ∨
   old.dynamicFollowUpAnswers ≠ s.dynamicFollowUpAnswers) ∧
  s.step = AppStep.final

instance (old s : AppState) : Decidable (fireFinal old s) := by
  unfold fireFinal; infer_instance

/-- The request body `generateGuidelines(transcript, extractedSymptom,
staticQA, dynamicQA)` assembled by the `final` effect — note it reads the
raw `transcript` state, not `editedTranscript`. -/
def finalPayload (s : AppState) : GuidelinePayload :=
  { transcript := s.transcript, key_symptom := s.extractedSymptom,
    follow_up :=
      mkQA s.staticFollowUpQuestions s.staticFollowUpAnswers ++
      mkQA s.dynamicFollowUpQuestions s.dynamicFollowUpAnswers }

/-- The effects of the `final` `useEffect`: narrate, then issue the
`GuidelineGeneration` request (the code after the `await` arrives later
as `Event.guidelinesResult`). -/
def finalStepEffect (old s : AppState) : List Eff :=
  if fireFinal old s then
    [Eff.cancelSpeech, Eff.speak finalMsg,
     Eff.requestGuidelines (finalPayload s)]
  else []

/-- The seven `useEffect` hooks of the canonical `App`, run after a commit
that took the state from `old` to `s`, in declaration order.  Each fires
when one of its dependencies changed and its step condition holds; only
the `dynamicFollowupLoading` and `final` effects update state (they set
`loading`), the rest only emit speech, playback and requests. -/
def runEffects (old s : AppState) : AppState × List Eff :=
  (if fireDynLoading old s ∨ fireFinal old s then { s with loading := true }
   else s,
   audioEffect old s ++ reviewEffect old s ++ followupLoadingEffect old s ++
   followupNarration old s ++ dynLoadingEffect old s ++ dynNarration old s ++
   finalStepEffect old s)

/-- One orchestrator step: run the event handler, then the `useEffect`
hooks over the committed state change. -/
def appStep (s : AppState) (e : Event) : AppState × List Eff :=
  let h := handle s e
  let r := runEffects s h.1
  (r.1, h.2 ++ r.2)

/-- The states the canonical `App` can actually be in. -/
inductive Reachable : AppState → Prop where
  | init : Reachable initState
  | step : ∀ {s : AppState} (e : Event), Reachable s → Reachable (appStep s e).1

/- ---------------- narration device, counters, traces ---------------- -/

/-- A `speechSynthesis` action. -/
inductive SpeechAct where
  | cancel
  | speak (text : String)
deriving DecidableEq

/-- The speech-synthesis actions among a step's effects, in order. -/
def narrActs : List Eff → List SpeechAct
  | [] => []
  | Eff.cancelSpeech :: r => SpeechAct.cancel :: narrActs r
  | Eff.speak t :: r => SpeechAct.speak t :: narrActs r
  | _ :: r => narrActs r

/-- The Web Speech API utterance queue: `cancel` empties it, `speak`
appends.  The head utterance is the one audible; any tail is queued
behind it, so "at most one active utterance" means a queue of length at
most one. -/
def speechRun (q : List String) : List SpeechAct → List String
  | [] => q
  | SpeechAct.cancel :: r => speechRun [] r
  | SpeechAct.speak t :: r => speechRun (q ++ [t]) r

/-- How many `FollowUpGeneration` requests a step emits. -/
def countFG : List Eff → Nat
  | [] => 0
  | Eff.requestFollowUpGen _ :: r => countFG r + 1
  | _ :: r => countFG r

/-- How many `GuidelineGeneration` requests a step emits. -/
def countGuide : List Eff → Nat
  | [] => 0
  | Eff.requestGuidelines _ :: r => countGuide r + 1
  | _ :: r => countGuide r

/-- Position of a step in the forward-only session order. -/
def phase : AppStep → Nat
  | AppStep.initial => 0
  | AppStep.recording => 1
  | AppStep.review => 2
  | AppStep.followupLoading => 3
  | AppStep.followup => 4
  | AppStep.dynamicFollowupLoading => 5
  | AppStep.dynamicFollowup => 6
  | AppStep.final => 7

/-- Run a whole event trace, counting the `FollowUpGeneration` requests
emitted along the way. -/
def runTrace (s : AppState) : List Event → AppState × Nat
  | [] => (s, 0)
  | e :: es =>
    let r := appStep s e
    let t := runTrace r.1 es
    (t.1, countFG r.2 + t.2)

/-- The reachable-state invariant of the static follow-up loop: while in
`followup`, the questions are the looked-up set for the extracted key, the
answer array has one slot per question, the index is in range, and every
answer before the index is non-blank. -/
def StaticInv (s : AppState) : Prop :=
  s.step = AppStep.followup →
    staticLookup s.extractedSymptom = some s.staticFollowUpQuestions ∧
    s.staticFollowUpAnswers.length = s.staticFollowUpQuestions.length ∧
    s.currentStaticIndex < s.staticFollowUpQuestions.length ∧
    ∀ j < s.currentStaticIndex,
      jsBlank (jsOrEmpty s.staticFollowUpAnswers j) = false

/-- Whether an event is the recorder's take delivery. -/
def isTakeEvent : Event → Bool
  | Event.takeProduced _ => true
  | _ => false

/- ---------------- concrete states used by closed theorems ---------------- -/

def blob0 : Blob := { data := [0] }

def mic0 : MicStream := { id := 0 }

/-- A session sitting on the first static follow-up question with every
answer still empty. -/
def c1StaticState : AppState :=
  { initState with step := AppStep.followup, extractedSymptom := "fever",
                   staticFollowUpQuestions := feverQuestions,
                   staticFollowUpAnswers := ["", "", ""],
                   currentStaticIndex := 0, overlayVisible := false,
                   welcomeSpoken := true }

/-- A session on the last (single) dynamic question, answered. -/
def c1DynState : AppState :=
  { initState with step := AppStep.dynamicFollowup,
                   transcript := "i have a fever",
                   editedTranscript := "i have a fever",
                   extractedSymptom := "fever",
                   staticFollowUpQuestions := feverQuestions,
                   staticFollowUpAnswers :=
                     ["since monday", "yes, chills", "no recent travel"],
                   currentStaticIndex := 2,
                   dynamicFollowUpQuestions := ["How high was the fever?"],
                   dynamicFollowUpAnswers := ["around 39 degrees"],
                   currentDynamicIndex := 0, loading := true,
                   overlayVisible := false, welcomeSpoken := true }

/-- A session whose answer arrays have no slot at the current indices. -/
def c10State : AppState :=
  { initState with step := AppStep.followup,
                   staticFollowUpQuestions := feverQuestions,
                   overlayVisible := false, welcomeSpoken := true }

/-- The session just after the review confirmation (reached from
`initState` by start, take, transcription, proceed). -/
def c2State : AppState :=
  (appStep (appStep (appStep (appStep initState Event.startClick).1
    (Event.takeProduced blob0)).1
    (Event.transcriptionResult (Except.ok "I feel dizzy all day"))).1
    Event.proceedClick).1

/-- A session awaiting the guideline result, with a transcript, a symptom
key and answers in place. -/
def c3State : AppState :=
  { initState with step := AppStep.final,
                   transcript := "i have a fever and chills",
                   editedTranscript := "i have a fever and chills",
                   extractedSymptom := "fever",
                   staticFollowUpQuestions := feverQuestions,
                   staticFollowUpAnswers :=
                     ["since monday", "yes, chills", "no recent travel"],
                   currentStaticIndex := 2,
                   dynamicFollowUpQuestions := ["How high was the fever?"],
                   dynamicFollowUpAnswers := ["around 39 degrees"],
                   currentDynamicIndex := 0, loading := true,
                   overlayVisible := false, welcomeSpoken := true }

/-- A session on the last dynamic question whose transcript was edited
during review: the raw `transcript` and the confirmed `editedTranscript`
differ. -/
def c6State : AppState :=
  { initState with step := AppStep.dynamicFollowup,
                   transcript := "i have a fever",
                   editedTranscript := "i have a severe fever since yesterday",
                   extractedSymptom := "fever",
                   staticFollowUpQuestions := feverQuestions,
                   staticFollowUpAnswers :=
                     ["since monday", "yes, chills", "no recent travel"],
                   currentStaticIndex := 2,
                   dynamicFollowUpQuestions := ["How high was the fever?"],
                   dynamicFollowUpAnswers := ["around 39 degrees"],
                   currentDynamicIndex := 0, loading := true,
                   overlayVisible := false, welcomeSpoken := true }

/-- The `GuidelineGeneration` request body the code emits from `c6State`. -/
def c6Payload : GuidelinePayload :=
  { transcript := "i have a fever",
    key_symptom := "fever",
    follow_up :=
      [{ question := (feverQuestions.getD 0 ""), answer := "since monday" },
       { question := (feverQuestions.getD 1 ""), answer := "yes, chills" },
       { question := (feverQuestions.getD 2 ""), answer := "no recent travel" },
       { question := "How high was the fever?", answer := "around 39 degrees" }] }

/-- A session in the `recording` step (welcome already spoken). -/
def c7RecState : AppState :=
  { initState with step := AppStep.recording, overlayVisible := false,
                   welcomeSpoken := true }

/-- A session in the `review` step. -/
def c7ReviewState : AppState :=
  { initState with step := AppStep.review,
                   transcript := "i have a headache",
                   editedTranscript := "i have a headache",
                   overlayVisible := false, welcomeSpoken := true }

/- ---------------- helper lemmas ---------------- -/

theorem jsIsSpace_not_lower {c : Char} (h : jsIsSpace c = true) :
    isAsciiLower c = false := by
  revert h
  simp only [jsIsSpace, Bool.or_eq_true, decide_eq_true_eq]
  rintro (((rfl | rfl) | rfl) | rfl) <;> rfl

theorem filter_lower_dropWhile (l : List Char) :
    (l.dropWhile jsIsSpace).filter isAsciiLower = l.filter isAsciiLower := by
  induction l with
  | nil => rfl
  | cons c t ih =>
    by_cases h : jsIsSpace c = true
    · rw [List.dropWhile_cons_of_pos h, ih,
        List.filter_cons_of_neg (by simp [jsIsSpace_not_lower h])]
    · rw [List.dropWhile_cons_of_neg h]

theorem filter_jsTrim (l : List Char) :
    (jsTrim l).filter isAsciiLower = l.filter isAsciiLower := by
  unfold jsTrim
  rw [List.filter_reverse, filter_lower_dropWhile, List.filter_reverse,
    List.reverse_reverse, filter_lower_dropWhile]

theorem startsList_refl (l : List Char) : startsList l l = true := by
  induction l with
  | nil => rfl
  | cons c t ih => simp [startsList, ih]

theorem strContains_self (a : String) : strContains a a = true := by
  unfold strContains containsSub
  rw [List.any_eq_true]
  exact ⟨0, List.mem_range.mpr (Nat.succ_pos _), by simp [startsList_refl]⟩

theorem assoc_find_iff (l : List (String × List String))
    (hk : (l.map Prod.fst).Nodup) (t : String) (qs : List String) :
    (l.find? (fun p => p.1 = t)).map Prod.snd = some qs ↔ (t, qs) ∈ l := by
  induction l with
  | nil => simp
  | cons hd tl ih =>
    obtain ⟨k, v⟩ := hd
    simp only [List.map_cons, List.nodup_cons, List.mem_map] at hk
    by_cases h : k = t
    · subst h
      rw [List.find?_cons_of_pos _ (by simp)]
      simp only [Option.map_some', Option.some.injEq, List.mem_cons,
        Prod.mk.injEq, true_and]
      constructor
      · intro hv
        exact Or.inl hv.symm
      · rintro (hv | hmem)
        · exact hv.symm
        · exact absurd ⟨(k, qs), hmem, rfl⟩ hk.1
    · rw [List.find?_cons_of_neg _ (by simp [h])]
      rw [ih hk.2]
      constructor
      · intro hmem
        exact List.mem_cons_of_mem _ hmem
      · intro hmem
        rcases List.mem_cons.mp hmem with hv | hmem2
        · exact absurd (congrArg Prod.fst hv).symm h
        · exact hmem2

theorem lookupLoop_eq_firstmatch (table : List (String × List String))
    (t : String) :
    lookupLoop table t = (specLookupFirstMatch table t).getD [] := by
  induction table with
  | nil => rfl
  | cons hd tl ih =>
    obtain ⟨k, v⟩ := hd
    by_cases h : strContains t k = true
    · unfold lookupLoop specLookupFirstMatch
      rw [List.find?_cons_of_pos _ (by simp [h]), if_pos h]
      rfl
    · have hk : ¬ k = t := by
        rintro rfl
        exact h (strContains_self k)
      unfold lookupLoop specLookupFirstMatch
      rw [List.find?_cons_of_neg _ (by simp [h, hk]),
        if_neg (by simpa using h)]
      exact ih

theorem runEffects_no_change (old s : AppState)
    (h1 : old.audioUrl = s.audioUrl) (h2 : old.step = s.step)
    (h3 : old.editedTranscript = s.editedTranscript)
    (h4 : old.currentStaticIndex = s.currentStaticIndex)
    (h5 : old.staticFollowUpQuestions = s.staticFollowUpQuestions)
    (h6 : old.transcript = s.transcript)
    (h7 : old.extractedSymptom = s.extractedSymptom)
    (h8 : old.staticFollowUpAnswers = s.staticFollowUpAnswers)
    (h9 : old.currentDynamicIndex = s.currentDynamicIndex)
    (h10 : old.dynamicFollowUpQuestions = s.dynamicFollowUpQuestions)
    (h11 : old.dynamicFollowUpAnswers = s.dynamicFollowUpAnswers) :
    runEffects old s = (s, []) := by
  unfold runEffects audioEffect reviewEffect followupLoadingEffect
    followupNarration dynLoadingEffect fireDynLoading dynNarration
    finalStepEffect fireFinal
  simp [h1, h2, h3, h4, h5, h6, h7, h8, h9, h10, h11]

/- ---------------- C4: the symptom lookup ---------------- -/

/-- C4, counterexample: the claim's containment policy would send the
token "highfever" (which contains the key "fever") to the fever question
set, but the canonical lookup is exact-key object access and finds
nothing. -/
theorem lookup_containment_counterexample :
    specLookupFirstMatch staticFollowUpQuestionsMapping "highfever" =
      some feverQuestions ∧
    staticLookup "highfever" = none := by
  constructor <;> decide

/-- C4, amended: the canonical lookup matches a table entry exactly (it
returns the question list of the entry whose key equals the cleaned
token, and "not found" otherwise), deterministically; the first-match
containment policy of the claim is implemented only by the part_001
prototype loop, whose result coincides with the spec's first-match rule
on every token. -/
theorem lookup_exact_and_loop_firstmatch :
    (∀ t qs, staticLookup t = some qs ↔
      (t, qs) ∈ staticFollowUpQuestionsMapping) ∧
    (∀ t, part001Lookup t =
      (specLookupFirstMatch followUpQuestionsMapping t).getD []) := by
  constructor
  · intro t qs
    unfold staticLookup
    exact assoc_find_iff _ (by decide) t qs
  · intro t
    exact lookupLoop_eq_firstmatch _ t

/- ---------------- C5: the SymptomKey normalization ---------------- -/

/-- C5: the key computed from a raw label equals the first line of the
label, lowercased, with every character that is not a lowercase letter
removed (the intermediate trim of the code changes nothing), and the key
consists only of the letters a-z. -/
theorem symptomKey_normalization (raw : String) :
    (cleanSymptomStr raw).data = specSymptomKey raw.data ∧
    (cleanSymptomStr raw).data.all isAsciiLower = true := by
  constructor
  · show cleanSymptom raw.data = specSymptomKey raw.data
    unfold cleanSymptom specSymptomKey
    exact filter_jsTrim _
  · show (cleanSymptom raw.data).all isAsciiLower = true
    unfold cleanSymptom
    rw [List.all_eq_true]
    intro c hc
    exact (List.mem_filter.mp hc).2

/- ---------------- C8: start failure leaves the recorder idle ---------------- -/

/-- C8: when microphone access cannot be granted, `startRecording` reports
the failure (console error and alert), leaves the component exactly as it
was — idle, no recorder, no buffered chunks, no timer — and no take can
come from this invocation (none is emitted, and a subsequent stop is a
no-op). -/
theorem audioCapture_start_failure_idle (s : RecorderState)
    (h1 : s.isRecording = false) (h2 : s.mediaRecorder = none)
    (h3 : s.audioChunks = []) (h4 : s.timerOn = false) :
    startRecording s none =
      (s, [RecEff.logError, RecEff.alertShown micErrMsg]) ∧
    (startRecording s none).1.isRecording = false ∧
    (startRecording s none).1.mediaRecorder = none ∧
    (startRecording s none).1.audioChunks = [] ∧
    (startRecording s none).1.timerOn = false ∧
    takeCount (startRecording s none).2 = 0 ∧
    stopRecording (startRecording s none).1 =
      ((startRecording s none).1, []) := by
  refine ⟨rfl, h1, h2, h3, h4, rfl, ?_⟩
  unfold startRecording stopRecording
  simp [h2]

theorem audioCapture_start_failure_idle_witness :
    startRecording recorderIdle none =
      (recorderIdle, [RecEff.logError, RecEff.alertShown micErrMsg]) ∧
    (startRecording recorderIdle none).1.isRecording = false ∧
    (startRecording recorderIdle none).1.mediaRecorder = none ∧
    (startRecording recorderIdle none).1.audioChunks = [] ∧
    (startRecording recorderIdle none).1.timerOn = false ∧
    takeCount (startRecording recorderIdle none).2 = 0 ∧
    stopRecording (startRecording recorderIdle none).1 =
      ((startRecording recorderIdle none).1, []) :=
  audioCapture_start_failure_idle recorderIdle rfl rfl rfl rfl

/- ---------------- C9: device acquire/release pairing ---------------- -/

/-- C9, counterexample: in the canonical recorder a successful start
followed by stop performs zero releases of the input device — `stop()`
stops the `MediaRecorder` but never stops the stream's tracks, so the
microphone is still held although the take was produced. -/
theorem device_release_missing_counterexample :
    releaseCount ((startRecording recorderIdle (some mic0)).2 ++
      (stopRecording (startRecording recorderIdle (some mic0)).1).2) = 0 ∧
    devHeld ((startRecording recorderIdle (some mic0)).2 ++
      (stopRecording (startRecording recorderIdle (some mic0)).1).2) = true ∧
    takeCount ((startRecording recorderIdle (some mic0)).2 ++
      (stopRecording (startRecording recorderIdle (some mic0)).1).2) = 1 := by
  decide

/-- C9, amended: only the part_000 recorder pairs each successful start
with exactly one device release — its `stopRecording` stops the stream's
tracks, after which the device is no longer held; the canonical
`src/src/components` recorder's `stopRecording` performs no release at
all. -/
theorem device_release_pairing_amended (s : P0State) (st : MicStream)
    (s2 : RecorderState) :
    releaseCount ((p000Start s (some st)).2 ++
      (p000Stop (p000Start s (some st)).1).2) = 1 ∧
    devHeld ((p000Start s (some st)).2 ++
      (p000Stop (p000Start s (some st)).1).2) = false ∧
    (p000Stop (p000Start s (some st)).1).1.isRecording = false ∧
    releaseCount (stopRecording s2).2 = 0 := by
  refine ⟨rfl, rfl, rfl, ?_⟩
  unfold stopRecording
  split <;> simp [releaseCount]

/- ---------------- C10: next() is total on a missing answer slot ---------------- -/

/-- C10: when the answers array has no slot at the current index the
missing slot reads as the empty string, so `next()` rejects exactly as
for a blank answer: the state is fully unchanged and only the validation
prompt is surfaced (in both the static and the dynamic loop). -/
theorem next_total_missing_slot :
    (∀ s : AppState,
      s.staticFollowUpAnswers.length ≤ s.currentStaticIndex →
      handleNextStaticFollowUp s = (s, [Eff.alertShown answerPrompt])) ∧
    (∀ s : AppState,
      s.dynamicFollowUpAnswers.length ≤ s.currentDynamicIndex →
      handleNextDynamicFollowUp s = (s, [Eff.alertShown answerPrompt])) := by
  constructor
  · intro s h
    unfold handleNextStaticFollowUp
    rw [show jsOrEmpty s.staticFollowUpAnswers s.currentStaticIndex = ""
      from List.getD_eq_default _ _ h]
    rfl
  · intro s h
    unfold handleNextDynamicFollowUp
    rw [show jsOrEmpty s.dynamicFollowUpAnswers s.currentDynamicIndex = ""
      from List.getD_eq_default _ _ h]
    rfl

theorem next_total_missing_slot_witness :
    handleNextStaticFollowUp c10State =
      (c10State, [Eff.alertShown answerPrompt]) ∧
    handleNextDynamicFollowUp c10State =
      (c10State, [Eff.alertShown answerPrompt]) :=
  ⟨next_total_missing_slot.1 c10State (by decide),
   next_total_missing_slot.2 c10State (by decide)⟩

/- ---------------- C3: service failures do not reset the session ---------------- -/

/-- C3, counterexample: a `ServiceError` during `GuidelineGeneration`
leaves the session in `final`, not back in `initial`, with the
transcript, the symptom key and every answer still in place — nothing is
discarded, only the error modal text is set. -/
theorem serviceError_reset_counterexample :
    (appStep c3State (Event.guidelinesResult (Except.error ()))).1.step =
      AppStep.final ∧
    (appStep c3State (Event.guidelinesResult (Except.error ()))).1.step ≠
      AppStep.initial ∧
    (appStep c3State (Event.guidelinesResult (Except.error ()))).1.transcript =
      "i have a fever and chills" ∧
    (appStep c3State (Event.guidelinesResult
      (Except.error ()))).1.extractedSymptom = "fever" ∧
    (appStep c3State (Event.guidelinesResult
      (Except.error ()))).1.staticFollowUpAnswers =
      ["since monday", "yes, chills", "no recent travel"] ∧
    (appStep c3State (Event.guidelinesResult
      (Except.error ()))).1.dynamicFollowUpAnswers = ["around 39 degrees"] ∧
    (appStep c3State (Event.guidelinesResult (Except.error ()))).1.errorMsg =
      guidelineErrMsg := by
  decide

/-- C3, amended: every backend-call failure is reported to the user — the
message is narrated (cancel, then speak) and shown in the error modal via
`errorMsg` — but the session is never reset: the step and every other
field are left exactly as they were, and closing the modal clears only
the message. -/
theorem serviceError_reports_without_reset (s : AppState) :
    (appStep s (Event.transcriptionResult (Except.error ())) =
      if s.step = AppStep.recording ∧ s.loading = true then
        ({ s with errorMsg := transcriptionErrMsg, loading := false },
         errNarr transcriptionErrMsg)
      else (s, [])) ∧
    (appStep s (Event.extractionResult (Except.error ())) =
      if s.step = AppStep.followupLoading ∧ s.loading = true then
        ({ s with errorMsg := extractionErrMsg, loading := false },
         errNarr extractionErrMsg)
      else (s, [])) ∧
    (appStep s (Event.dynamicQuestionsResult (Except.error ())) =
      if s.step = AppStep.dynamicFollowupLoading ∧ s.loading = true then
        ({ s with errorMsg := dynGenErrMsg }, errNarr dynGenErrMsg)
      else (s, [])) ∧
    (appStep s (Event.guidelinesResult (Except.error ())) =
      if s.step = AppStep.final ∧ s.loading = true then
        ({ s with errorMsg := guidelineErrMsg, loading := false },
         errNarr guidelineErrMsg)
      else (s, [])) ∧
    (appStep s Event.closeErrorModal =
      if s.errorMsg ≠ "" then ({ s with errorMsg := "" }, []) else (s, [])) := by
  have hA : ∀ m : String,
      runEffects s { s with errorMsg := m, loading := false } =
        ({ s with errorMsg := m, loading := false }, []) :=
    fun _ => runEffects_no_change _ _ rfl rfl rfl rfl rfl rfl rfl rfl rfl rfl rfl
  have hB : ∀ m : String,
      runEffects s { s with errorMsg := m } = ({ s with errorMsg := m }, []) :=
    fun _ => runEffects_no_change _ _ rfl rfl rfl rfl rfl rfl rfl rfl rfl rfl rfl
  have hC : runEffects s s = (s, []) :=
    runEffects_no_change _ _ rfl rfl rfl rfl rfl rfl rfl rfl rfl rfl rfl
  refine ⟨?_, ?_, ?_, ?_, ?_⟩
  · unfold appStep handle
    by_cases hg : s.step = AppStep.recording ∧ s.loading = true
    · simp only [if_pos hg, hA, List.append_nil]
    · simp only [if_neg hg, hC, List.append_nil]
  · unfold appStep handle
    by_cases hg : s.step = AppStep.followupLoading ∧ s.loading = true
    · simp only [if_pos hg, hA, List.append_nil]
    · simp only [if_neg hg, hC, List.append_nil]
  · unfold appStep handle
    by_cases hg : s.step = AppStep.dynamicFollowupLoading ∧ s.loading = true
    · simp only [if_pos hg, hB, List.append_nil]
    · simp only [if_neg hg, hC, List.append_nil]
  · unfold appStep handle
    by_cases hg : s.step = AppStep.final ∧ s.loading = true
    · simp only [if_pos hg, hA, List.append_nil]
    · simp only [if_neg hg, hC, List.append_nil]
  · unfold appStep handle
    by_cases hg : s.errorMsg ≠ ""
    · simp only [if_pos hg, hB, List.append_nil]
    · simp only [if_neg hg, hC, List.append_nil]

/- ---------------- C6: the guideline request payload ---------------- -/

set_option maxRecDepth 4000 in
/-- C6: answering the last dynamic question issues exactly one
`GuidelineGeneration` request whose Q&A part is the static pairs followed
by the dynamic pairs in original order — but whose transcript field is
the session's raw `transcript`, not the patient-edited
`editedTranscript`, as evaluated here on a session whose transcript was
edited during review. -/
theorem guidelinePayload_uses_raw_transcript :
    (appStep c6State Event.nextDynamicClick).2 =
      [Eff.cancelSpeech, Eff.speak finalMsg,
       Eff.requestGuidelines c6Payload] ∧
    countGuide (appStep c6State Event.nextDynamicClick).2 = 1 ∧
    (appStep c6State Event.nextDynamicClick).1.step = AppStep.final ∧
    c6Payload.transcript = c6State.transcript ∧
    c6Payload.transcript ≠ c6State.editedTranscript ∧
    c6Payload.follow_up =
      mkQA c6State.staticFollowUpQuestions c6State.staticFollowUpAnswers ++
      mkQA c6State.dynamicFollowUpQuestions c6State.dynamicFollowUpAnswers := by
  decide

/- ---------------- C7: the narration discipline ---------------- -/

set_option maxRecDepth 4000 in
/-- C7, counterexample: the recording-stopped narration issued when the
take arrives is not preceded by a cancel, so with the welcome utterance
still playing the speech queue afterwards holds two utterances — the
welcome keeps playing and the new text is queued behind it, not played in
its place. -/
theorem narration_queue_counterexample :
    narrActs (appStep c7RecState (Event.takeProduced blob0)).2 =
      [SpeechAct.speak stoppedMsg] ∧
    speechRun [welcomeMsg]
      (narrActs (appStep c7RecState (Event.takeProduced blob0)).2) =
      [welcomeMsg, stoppedMsg] ∧
    (speechRun [welcomeMsg]
      (narrActs (appStep c7RecState (Event.takeProduced blob0)).2)).length =
      2 := by
  decide

/- ---------------- C1: the per-question next() loop ---------------- -/

theorem runEffects_step_eq (old s : AppState) :
    ((runEffects old s).1).step = s.step := by
  unfold runEffects
  split <;> rfl

theorem runEffects_fst_of_step (old s : AppState)
    (h5 : s.step ≠ AppStep.dynamicFollowupLoading)
    (h7 : s.step ≠ AppStep.final) :
    (runEffects old s).1 = s := by
  unfold runEffects
  rw [if_neg]
  rintro (h | h)
  · exact h5 h.2
  · exact h7 h.2

/-- C1: in the static follow-up loop (and identically in the dynamic one)
`next()` with a blank (post-trim) current answer leaves the whole state —
in particular the question index and the step — unchanged and surfaces
the answer prompt; with a non-blank answer it increments the index while
a later question remains, keeping the step, and at the last question
moves the step to `dynamicFollowupLoading` (respectively to `final`).
Consequently the index never advances while the current trimmed answer is
empty, whatever the answer sequence. -/
theorem next_blank_guard_spec :
    (∀ s : AppState, s.step = AppStep.followup →
      s.staticFollowUpQuestions ≠ [] →
      (if jsBlank (jsOrEmpty s.staticFollowUpAnswers s.currentStaticIndex) =
          true then
        appStep s Event.nextStaticClick = (s, [Eff.alertShown answerPrompt])
      else if s.currentStaticIndex + 1 < s.staticFollowUpQuestions.length then
        (appStep s Event.nextStaticClick).1 =
          { s with currentStaticIndex := s.currentStaticIndex + 1 } ∧
        (appStep s Event.nextStaticClick).1.step = s.step
      else
        (appStep s Event.nextStaticClick).1.step =
          AppStep.dynamicFollowupLoading)) ∧
    (∀ s : AppState, s.step = AppStep.dynamicFollowup →
      s.dynamicFollowUpQuestions ≠ [] →
      (if jsBlank (jsOrEmpty s.dynamicFollowUpAnswers s.currentDynamicIndex) =
          true then
        appStep s Event.nextDynamicClick = (s, [Eff.alertShown answerPrompt])
      else if s.currentDynamicIndex + 1 < s.dynamicFollowUpQuestions.length then
        (appStep s Event.nextDynamicClick).1 =
          { s with currentDynamicIndex := s.currentDynamicIndex + 1 } ∧
        (appStep s Event.nextDynamicClick).1.step = s.step
      else
        (appStep s Event.nextDynamicClick).1.step = AppStep.final)) ∧
    (∀ s : AppState,
      jsBlank (jsOrEmpty s.staticFollowUpAnswers s.currentStaticIndex) = true →
      (handleNextStaticFollowUp s).1 = s) ∧
    (∀ s : AppState,
      jsBlank (jsOrEmpty s.dynamicFollowUpAnswers s.currentDynamicIndex) = true →
      (handleNextDynamicFollowUp s).1 = s) := by
  have hre : ∀ s : AppState, runEffects s s = (s, []) := fun s =>
    runEffects_no_change _ _ rfl rfl rfl rfl rfl rfl rfl rfl rfl rfl rfl
  refine ⟨?_, ?_, ?_, ?_⟩
  · intro s h1 h2
    split_ifs with hb hlt
    · have hh : handle s Event.nextStaticClick =
          (s, [Eff.alertShown answerPrompt]) := by
        unfold handle handleNextStaticFollowUp
        dsimp only
        rw [if_pos ⟨h1, h2⟩, if_pos hb]
      simp only [appStep, hh, hre, List.append_nil]
    · have hh : handle s Event.nextStaticClick =
          ({ s with currentStaticIndex := s.currentStaticIndex + 1 }, []) := by
        unfold handle handleNextStaticFollowUp
        dsimp only
        rw [if_pos ⟨h1, h2⟩, if_neg hb, if_pos hlt]
      have hfst : (appStep s Event.nextStaticClick).1 =
          { s with currentStaticIndex := s.currentStaticIndex + 1 } := by
        simp only [appStep, hh]
        exact runEffects_fst_of_step _ _ (by simp [h1]) (by simp [h1])
      exact ⟨hfst, by rw [hfst]⟩
    · have hh : handle s Event.nextStaticClick =
          ({ s with step := AppStep.dynamicFollowupLoading }, []) := by
        unfold handle handleNextStaticFollowUp
        dsimp only
        rw [if_pos ⟨h1, h2⟩, if_neg hb, if_neg hlt]
      simp only [appStep, hh, runEffects_step_eq]
  · intro s h1 h2
    split_ifs with hb hlt
    · have hh : handle s Event.nextDynamicClick =
          (s, [Eff.alertShown answerPrompt]) := by
        unfold handle handleNextDynamicFollowUp
        dsimp only
        rw [if_pos ⟨h1, h2⟩, if_pos hb]
      simp only [appStep, hh, hre, List.append_nil]
    · have hh : handle s Event.nextDynamicClick =
          ({ s with currentDynamicIndex := s.currentDynamicIndex + 1 }, []) := by
        unfold handle handleNextDynamicFollowUp
        dsimp only
        rw [if_pos ⟨h1, h2⟩, if_neg hb, if_pos hlt]
      have hfst : (appStep s Event.nextDynamicClick).1 =
          { s with currentDynamicIndex := s.currentDynamicIndex + 1 } := by
        simp only [appStep, hh]
        exact runEffects_fst_of_step _ _ (by simp [h1]) (by simp [h1])
      exact ⟨hfst, by rw [hfst]⟩
    · have hh : handle s Event.nextDynamicClick =
          ({ s with step := AppStep.final }, []) := by
        unfold handle handleNextDynamicFollowUp
        dsimp only
        rw [if_pos ⟨h1, h2⟩, if_neg hb, if_neg hlt]
      simp only [appStep, hh, runEffects_step_eq]
  · intro s hb
    unfold handleNextStaticFollowUp
    rw [if_pos hb]
  · intro s hb
    unfold handleNextDynamicFollowUp
    rw [if_pos hb]

set_option maxRecDepth 4000 in
theorem next_blank_guard_spec_witness :
    (if jsBlank (jsOrEmpty c1StaticState.staticFollowUpAnswers
        c1StaticState.currentStaticIndex) = true then
      appStep c1StaticState Event.nextStaticClick =
        (c1StaticState, [Eff.alertShown answerPrompt])
    else if c1StaticState.currentStaticIndex + 1 <
        c1StaticState.staticFollowUpQuestions.length then
      (appStep c1StaticState Event.nextStaticClick).1 =
        { c1StaticState with
            currentStaticIndex := c1StaticState.currentStaticIndex + 1 } ∧
      (appStep c1StaticState Event.nextStaticClick).1.step =
        c1StaticState.step
    else
      (appStep c1StaticState Event.nextStaticClick).1.step =
        AppStep.dynamicFollowupLoading) ∧
    (if jsBlank (jsOrEmpty c1DynState.dynamicFollowUpAnswers
        c1DynState.currentDynamicIndex) = true then
      appStep c1DynState Event.nextDynamicClick =
        (c1DynState, [Eff.alertShown answerPrompt])
    else if c1DynState.currentDynamicIndex + 1 <
        c1DynState.dynamicFollowUpQuestions.length then
      (appStep c1DynState Event.nextDynamicClick).1 =
        { c1DynState with
            currentDynamicIndex := c1DynState.currentDynamicIndex + 1 } ∧
      (appStep c1DynState Event.nextDynamicClick).1.step = c1DynState.step
    else
      (appStep c1DynState Event.nextDynamicClick).1.step = AppStep.final) :=
  ⟨next_blank_guard_spec.1 c1StaticState rfl (by decide),
   next_blank_guard_spec.2.1 c1DynState rfl (by decide)⟩

theorem narrActs_append (a b : List Eff) :
    narrActs (a ++ b) = narrActs a ++ narrActs b := by
  induction a with
  | nil => rfl
  | cons e r ih => cases e <;> simp [narrActs, ih]

theorem speechRun_append (a b : List SpeechAct) :
    ∀ q, speechRun q (a ++ b) = speechRun (speechRun q a) b := by
  induction a with
  | nil => intro q; rfl
  | cons act r ih => intro q; cases act <;> simp [speechRun, ih]

/-- The narration shapes a disciplined call site can emit: nothing, a bare
cancel, or cancel-then-speak. -/
def narrBlock (l : List SpeechAct) : Prop :=
  l = [] ∨ l = [SpeechAct.cancel] ∨
  ∃ x, l = [SpeechAct.cancel, SpeechAct.speak x]

theorem speechRun_blocks (bs : List (List SpeechAct))
    (hb : ∀ b ∈ bs, narrBlock b) :
    ∀ q, speechRun q bs.flatten = q ∨ (speechRun q bs.flatten).length ≤ 1 := by
  induction bs with
  | nil => intro q; exact Or.inl rfl
  | cons b rest ih =>
    intro q
    have hhead := hb b (List.mem_cons_self b rest)
    have htail := ih (fun x hx => hb x (List.mem_cons_of_mem b hx))
    rw [List.flatten_cons, speechRun_append]
    rcases hhead with h | h | ⟨x, h⟩
    · rw [h]
      exact htail q
    · rw [h]
      show speechRun [] rest.flatten = q ∨
        (speechRun [] rest.flatten).length ≤ 1
      rcases htail [] with he | he
      · rw [he]
        exact Or.inr (by decide)
      · exact Or.inr he
    · rw [h]
      show speechRun [x] rest.flatten = q ∨
        (speechRun [x] rest.flatten).length ≤ 1
      rcases htail [x] with he | he
      · rw [he]
        exact Or.inr (by simp)
      · exact Or.inr he

theorem narr_block_audio (old s : AppState) :
    narrActs (audioEffect old s) = [] := by
  unfold audioEffect
  split <;> rfl

theorem narr_block_review (old s : AppState) :
    narrBlock (narrActs (reviewEffect old s)) := by
  unfold reviewEffect narrBlock
  split
  · exact Or.inr (Or.inr ⟨_, rfl⟩)
  · exact Or.inl rfl

theorem narr_block_followupLoading (old s : AppState) :
    narrBlock (narrActs (followupLoadingEffect old s)) := by
  unfold followupLoadingEffect narrBlock
  split
  · exact Or.inr (Or.inr ⟨_, rfl⟩)
  · exact Or.inl rfl

theorem narr_block_followupNarration (old s : AppState) :
    narrBlock (narrActs (followupNarration old s)) := by
  unfold followupNarration narrBlock
  split
  · exact Or.inr (Or.inr ⟨_, rfl⟩)
  · exact Or.inl rfl

theorem narr_block_dynLoading (old s : AppState) :
    narrBlock (narrActs (dynLoadingEffect old s)) := by
  unfold dynLoadingEffect narrBlock
  split
  · exact Or.inr (Or.inr ⟨_, rfl⟩)
  · exact Or.inl rfl

theorem narr_block_dynNarration (old s : AppState) :
    narrBlock (narrActs (dynNarration old s)) := by
  unfold dynNarration narrBlock
  split
  · exact Or.inr (Or.inr ⟨_, rfl⟩)
  · exact Or.inl rfl

theorem narr_block_finalStep (old s : AppState) :
    narrBlock (narrActs (finalStepEffect old s)) := by
  unfold finalStepEffect narrBlock
  split
  · exact Or.inr (Or.inr ⟨_, rfl⟩)
  · exact Or.inl rfl

theorem handler_narr_block (s : AppState) (e : Event)
    (h1 : isTakeEvent e = false) (h2 : e ≠ Event.overlayClick) :
    narrBlock (narrActs (handle s e).2) := by
  unfold narrBlock
  cases e with
  | overlayClick => exact absurd rfl h2
  | takeProduced b => simp [isTakeEvent] at h1
  | startClick =>
    unfold handle
    dsimp only
    split
    · exact Or.inr (Or.inl rfl)
    · exact Or.inl rfl
  | transcriptionResult r =>
    unfold handle
    dsimp only
    split
    · cases r with
      | ok t => exact Or.inl rfl
      | error u => exact Or.inr (Or.inr ⟨_, rfl⟩)
    · exact Or.inl rfl
  | editTranscript t =>
    unfold handle
    dsimp only
    split <;> exact Or.inl rfl
  | proceedClick =>
    unfold handle
    dsimp only
    split <;> exact Or.inl rfl
  | extractionResult r =>
    unfold handle
    dsimp only
    split
    · cases r with
      | ok raw =>
        dsimp only
        split <;> exact Or.inl rfl
      | error u => exact Or.inr (Or.inr ⟨_, rfl⟩)
    · exact Or.inl rfl
  | editStaticAnswer t =>
    unfold handle
    dsimp only
    split <;> exact Or.inl rfl
  | nextStaticClick =>
    unfold handle handleNextStaticFollowUp
    dsimp only
    split
    · split
      · exact Or.inl rfl
      · split <;> exact Or.inl rfl
    · exact Or.inl rfl
  | dynamicQuestionsResult r =>
    unfold handle
    dsimp only
    split
    · cases r with
      | ok qs => exact Or.inl rfl
      | error u => exact Or.inr (Or.inr ⟨_, rfl⟩)
    · exact Or.inl rfl
  | editDynamicAnswer t =>
    unfold handle
    dsimp only
    split <;> exact Or.inl rfl
  | nextDynamicClick =>
    unfold handle handleNextDynamicFollowUp
    dsimp only
    split
    · split
      · exact Or.inl rfl
      · split <;> exact Or.inl rfl
    · exact Or.inl rfl
  | guidelinesResult r =>
    unfold handle
    dsimp only
    split
    · cases r with
      | ok g => exact Or.inl rfl
      | error u => exact Or.inr (Or.inr ⟨_, rfl⟩)
    · exact Or.inl rfl
  | closeErrorModal =>
    unfold handle
    dsimp only
    split <;> exact Or.inl rfl

/-- C7, amended: every narration site except the recording-stopped message
(raised with the take) and the gesture-gated welcome message cancels any
playing utterance before speaking, so every other event either leaves the
utterance queue untouched or leaves at most one utterance in it; the two
excepted sites enqueue without cancelling, so a still-playing utterance
keeps playing and the new one is queued behind it. -/
theorem narration_cancel_before_play_amended (s : AppState) (e : Event)
    (q : List String) (h1 : isTakeEvent e = false)
    (h2 : e ≠ Event.overlayClick) :
    speechRun q (narrActs (appStep s e).2) = q ∨
    (speechRun q (narrActs (appStep s e).2)).length ≤ 1 := by
  have hs : narrActs (appStep s e).2 =
      ([narrActs (handle s e).2,
        narrActs (audioEffect s (handle s e).1),
        narrActs (reviewEffect s (handle s e).1),
        narrActs (followupLoadingEffect s (handle s e).1),
        narrActs (followupNarration s (handle s e).1),
        narrActs (dynLoadingEffect s (handle s e).1),
        narrActs (dynNarration s (handle s e).1),
        narrActs (finalStepEffect s (handle s e).1)] :
        List (List SpeechAct)).flatten := by
    show narrActs ((handle s e).2 ++ (runEffects s (handle s e).1).2) = _
    simp [runEffects, narrActs_append, List.flatten_cons, List.append_assoc]
  rw [hs]
  refine speechRun_blocks _ ?_ q
  intro b hb
  simp only [List.mem_cons, List.not_mem_nil, or_false] at hb
  rcases hb with h | h | h | h | h | h | h | h <;> subst h
  · exact handler_narr_block s e h1 h2
  · rw [narr_block_audio]
    exact Or.inl rfl
  · exact narr_block_review _ _
  · exact narr_block_followupLoading _ _
  · exact narr_block_followupNarration _ _
  · exact narr_block_dynLoading _ _
  · exact narr_block_dynNarration _ _
  · exact narr_block_finalStep _ _

set_option maxRecDepth 4000 in
theorem narration_cancel_before_play_amended_witness :
    speechRun [welcomeMsg, stoppedMsg]
      (narrActs (appStep c7ReviewState Event.proceedClick).2) =
      [welcomeMsg, stoppedMsg] ∨
    (speechRun [welcomeMsg, stoppedMsg]
      (narrActs (appStep c7ReviewState Event.proceedClick).2)).length ≤ 1 :=
  narration_cancel_before_play_amended c7ReviewState Event.proceedClick
    [welcomeMsg, stoppedMsg] rfl (by decide)

/- ---------------- C2: machinery ---------------- -/

theorem countFG_append (a b : List Eff) :
    countFG (a ++ b) = countFG a + countFG b := by
  induction a with
  | nil => simp [countFG]
  | cons e r ih => cases e <;> simp [countFG, ih] <;> omega

theorem countFG_runEffects (old s : AppState) :
    countFG (runEffects old s).2 = if fireDynLoading old s then 1 else 0 := by
  show countFG (audioEffect old s ++ reviewEffect old s ++
    followupLoadingEffect old s ++ followupNarration old s ++
    dynLoadingEffect old s ++ dynNarration old s ++ finalStepEffect old s) = _
  rw [countFG_append, countFG_append, countFG_append, countFG_append,
    countFG_append, countFG_append]
  have h1 : countFG (audioEffect old s) = 0 := by
    unfold audioEffect; split <;> rfl
  have h2 : countFG (reviewEffect old s) = 0 := by
    unfold reviewEffect; split <;> rfl
  have h3 : countFG (followupLoadingEffect old s) = 0 := by
    unfold followupLoadingEffect; split <;> rfl
  have h4 : countFG (followupNarration old s) = 0 := by
    unfold followupNarration; split <;> rfl
  have h5 : countFG (dynLoadingEffect old s) =
      if fireDynLoading old s then 1 else 0 := by
    unfold dynLoadingEffect; split <;> rfl
  have h6 : countFG (dynNarration old s) = 0 := by
    unfold dynNarration; split <;> rfl
  have h7 : countFG (finalStepEffect old s) = 0 := by
    unfold finalStepEffect; split <;> rfl
  rw [h1, h2, h3, h4, h5, h6, h7]
  omega

theorem handle_countFG (s : AppState) (e : Event) :
    countFG (handle s e).2 = 0 := by
  cases e with
  | overlayClick =>
    unfold handle; dsimp only; split_ifs <;> rfl
  | startClick =>
    unfold handle; dsimp only; split_ifs <;> rfl
  | takeProduced b =>
    unfold handle; dsimp only; split_ifs <;> rfl
  | transcriptionResult r =>
    unfold handle; dsimp only
    split_ifs <;> cases r <;> rfl
  | editTranscript t =>
    unfold handle; dsimp only; split_ifs <;> rfl
  | proceedClick =>
    unfold handle; dsimp only; split_ifs <;> rfl
  | extractionResult r =>
    unfold handle; dsimp only
    split_ifs
    · cases r with
      | ok raw =>
        dsimp only
        cases staticLookup (cleanSymptomStr raw) <;> rfl
      | error u => rfl
    · rfl
  | editStaticAnswer t =>
    unfold handle; dsimp only; split_ifs <;> rfl
  | nextStaticClick =>
    unfold handle handleNextStaticFollowUp; dsimp only
    split_ifs <;> rfl
  | dynamicQuestionsResult r =>
    unfold handle; dsimp only
    split_ifs <;> cases r <;> rfl
  | editDynamicAnswer t =>
    unfold handle; dsimp only; split_ifs <;> rfl
  | nextDynamicClick =>
    unfold handle handleNextDynamicFollowUp; dsimp only
    split_ifs <;> rfl
  | guidelinesResult r =>
    unfold handle; dsimp only
    split_ifs <;> cases r <;> rfl
  | closeErrorModal =>
    unfold handle; dsimp only; split_ifs <;> rfl

theorem handle_at_dyn (s : AppState) (e : Event)
    (hd : s.step = AppStep.dynamicFollowupLoading) :
    ¬ fireDynLoading s (handle s e).1 := by
  unfold fireDynLoading
  rintro ⟨hdep, hstep⟩
  cases e with
  | overlayClick =>
    unfold handle at hdep
    dsimp only at hdep
    split_ifs at hdep <;> rcases hdep with h | h | h | h | h <;> exact h rfl
  | startClick =>
    unfold handle at hdep
    dsimp only at hdep
    rw [if_neg (by simp [hd])] at hdep
    rcases hdep with h | h | h | h | h <;> exact h rfl
  | takeProduced b =>
    unfold handle at hdep
    dsimp only at hdep
    rw [if_neg (by simp [hd])] at hdep
    rcases hdep with h | h | h | h | h <;> exact h rfl
  | transcriptionResult r =>
    unfold handle at hdep
    dsimp only at hdep
    rw [if_neg (by simp [hd])] at hdep
    rcases hdep with h | h | h | h | h <;> exact h rfl
  | editTranscript t =>
    unfold handle at hdep
    dsimp only at hdep
    rw [if_neg (by simp [hd])] at hdep
    rcases hdep with h | h | h | h | h <;> exact h rfl
  | proceedClick =>
    unfold handle at hdep
    dsimp only at hdep
    rw [if_neg (by simp [hd])] at hdep
    rcases hdep with h | h | h | h | h <;> exact h rfl
  | extractionResult r =>
    unfold handle at hdep
    dsimp only at hdep
    rw [if_neg (by simp [hd])] at hdep
    rcases hdep with h | h | h | h | h <;> exact h rfl
  | editStaticAnswer t =>
    unfold handle at hdep
    dsimp only at hdep
    rw [if_neg (by simp [hd])] at hdep
    rcases hdep with h | h | h | h | h <;> exact h rfl
  | nextStaticClick =>
    unfold handle at hdep
    dsimp only at hdep
    rw [if_neg (by simp [hd])] at hdep
    rcases hdep with h | h | h | h | h <;> exact h rfl
  | dynamicQuestionsResult r =>
    unfold handle at hdep hstep
    dsimp only at hdep hstep
    by_cases hg : s.step = AppStep.dynamicFollowupLoading ∧ s.loading = true
    · rw [if_pos hg] at hdep hstep
      cases r with
      | ok qs => simp at hstep
      | error u => rcases hdep with h | h | h | h | h <;> exact h rfl
    · rw [if_neg hg] at hdep
      rcases hdep with h | h | h | h | h <;> exact h rfl
  | editDynamicAnswer t =>
    unfold handle at hdep
    dsimp only at hdep
    rw [if_neg (by simp [hd])] at hdep
    rcases hdep with h | h | h | h | h <;> exact h rfl
  | nextDynamicClick =>
    unfold handle at hdep
    dsimp only at hdep
    rw [if_neg (by simp [hd])] at hdep
    rcases hdep with h | h | h | h | h <;> exact h rfl
  | guidelinesResult r =>
    unfold handle at hdep
    dsimp only at hdep
    rw [if_neg (by simp [hd])] at hdep
    rcases hdep with h | h | h | h | h <;> exact h rfl
  | closeErrorModal =>
    unfold handle at hdep
    dsimp only at hdep
    split_ifs at hdep <;> rcases hdep with h | h | h | h | h <;> exact h rfl

theorem countFG_appStep (s : AppState) (e : Event) :
    countFG (appStep s e).2 =
      if s.step ≠ AppStep.dynamicFollowupLoading ∧
          (appStep s e).1.step = AppStep.dynamicFollowupLoading then 1
      else 0 := by
  have hstep : (appStep s e).1.step = (handle s e).1.step :=
    runEffects_step_eq _ _
  have hcnt : countFG (appStep s e).2 =
      if fireDynLoading s (handle s e).1 then 1 else 0 := by
    show countFG ((handle s e).2 ++ (runEffects s (handle s e).1).2) = _
    rw [countFG_append, handle_countFG, countFG_runEffects, Nat.zero_add]
  rw [hcnt, hstep]
  by_cases hd : s.step = AppStep.dynamicFollowupLoading
  · rw [if_neg (handle_at_dyn s e hd), if_neg]
    rintro ⟨hne, _⟩
    exact hne hd
  · by_cases h2 : (handle s e).1.step = AppStep.dynamicFollowupLoading
    · rw [if_pos ⟨Or.inl (by rw [h2]; exact hd), h2⟩, if_pos ⟨hd, h2⟩]
    · rw [if_neg, if_neg]
      · rintro ⟨_, hc⟩
        exact h2 hc
      · intro hf
        exact h2 hf.2

theorem handle_step_trans (s : AppState) (e : Event) :
    (handle s e).1.step = s.step ∨
    (s.step = AppStep.initial ∧
      (handle s e).1.step = AppStep.recording) ∨
    (s.step = AppStep.recording ∧
      (handle s e).1.step = AppStep.review) ∨
    (s.step = AppStep.review ∧
      (handle s e).1.step = AppStep.followupLoading) ∨
    (s.step = AppStep.followupLoading ∧
      ((handle s e).1.step = AppStep.followup ∨
       (handle s e).1.step = AppStep.dynamicFollowupLoading)) ∨
    (s.step = AppStep.followup ∧
      (handle s e).1.step = AppStep.dynamicFollowupLoading) ∨
    (s.step = AppStep.dynamicFollowupLoading ∧
      (handle s e).1.step = AppStep.dynamicFollowup) ∨
    (s.step = AppStep.dynamicFollowup ∧
      (handle s e).1.step = AppStep.final) := by
  cases e with
  | overlayClick =>
    left
    unfold handle
    dsimp only
    split_ifs <;> rfl
  | startClick =>
    unfold handle
    dsimp only
    by_cases hg : s.step = AppStep.initial
    · rw [if_pos hg]
      exact Or.inr (Or.inl ⟨hg, rfl⟩)
    · rw [if_neg hg]
      exact Or.inl rfl
  | takeProduced b =>
    unfold handle
    dsimp only
    split_ifs <;> exact Or.inl rfl
  | transcriptionResult r =>
    unfold handle
    dsimp only
    by_cases hg : s.step = AppStep.recording ∧ s.loading = true
    · rw [if_pos hg]
      cases r with
      | ok t => exact Or.inr (Or.inr (Or.inl ⟨hg.1, rfl⟩))
      | error u => exact Or.inl rfl
    · rw [if_neg hg]
      exact Or.inl rfl
  | editTranscript t =>
    unfold handle
    dsimp only
    split_ifs <;> exact Or.inl rfl
  | proceedClick =>
    unfold handle
    dsimp only
    by_cases hg : s.step = AppStep.review ∧ s.loading = false
    · rw [if_pos hg]
      exact Or.inr (Or.inr (Or.inr (Or.inl ⟨hg.1, rfl⟩)))
    · rw [if_neg hg]
      exact Or.inl rfl
  | extractionResult r =>
    unfold handle
    dsimp only
    by_cases hg : s.step = AppStep.followupLoading ∧ s.loading = true
    · rw [if_pos hg]
      cases r with
      | ok raw =>
        dsimp only
        cases staticLookup (cleanSymptomStr raw) with
        | some qs =>
          exact Or.inr (Or.inr (Or.inr (Or.inr (Or.inl ⟨hg.1, Or.inl rfl⟩))))
        | none =>
          exact Or.inr (Or.inr (Or.inr (Or.inr (Or.inl ⟨hg.1, Or.inr rfl⟩))))
      | error u => exact Or.inl rfl
    · rw [if_neg hg]
      exact Or.inl rfl
  | editStaticAnswer t =>
    unfold handle
    dsimp only
    split_ifs <;> exact Or.inl rfl
  | nextStaticClick =>
    unfold handle handleNextStaticFollowUp
    dsimp only
    by_cases hg : s.step = AppStep.followup ∧ s.staticFollowUpQuestions ≠ []
    · rw [if_pos hg]
      split_ifs with hb hlt
      · exact Or.inl rfl
      · exact Or.inl rfl
      · exact Or.inr (Or.inr (Or.inr (Or.inr (Or.inr (Or.inl ⟨hg.1, rfl⟩)))))
    · rw [if_neg hg]
      exact Or.inl rfl
  | dynamicQuestionsResult r =>
    unfold handle
    dsimp only
    by_cases hg : s.step = AppStep.dynamicFollowupLoading ∧ s.loading = true
    · rw [if_pos hg]
      cases r with
      | ok qs =>
        exact Or.inr (Or.inr (Or.inr (Or.inr (Or.inr (Or.inr
          (Or.inl ⟨hg.1, rfl⟩))))))
      | error u => exact Or.inl rfl
    · rw [if_neg hg]
      exact Or.inl rfl
  | editDynamicAnswer t =>
    unfold handle
    dsimp only
    split_ifs <;> exact Or.inl rfl
  | nextDynamicClick =>
    unfold handle handleNextDynamicFollowUp
    dsimp only
    by_cases hg : s.step = AppStep.dynamicFollowup ∧
        s.dynamicFollowUpQuestions ≠ []
    · rw [if_pos hg]
      split_ifs with hb hlt
      · exact Or.inl rfl
      · exact Or.inl rfl
      · exact Or.inr (Or.inr (Or.inr (Or.inr (Or.inr (Or.inr (Or.inr
          ⟨hg.1, rfl⟩))))))
    · rw [if_neg hg]
      exact Or.inl rfl
  | guidelinesResult r =>
    unfold handle
    dsimp only
    split_ifs <;> cases r <;> exact Or.inl rfl
  | closeErrorModal =>
    unfold handle
    dsimp only
    split_ifs <;> exact Or.inl rfl

theorem phase_mono (s : AppState) (e : Event) :
    phase s.step ≤ phase (appStep s e).1.step := by
  rw [show (appStep s e).1.step = (handle s e).1.step from
    runEffects_step_eq _ _]
  rcases handle_step_trans s e with h | h | h | h | h | h | h | h
  · rw [h]
  · rw [h.1, h.2]; decide
  · rw [h.1, h.2]; decide
  · rw [h.1, h.2]; decide
  · rcases h.2 with h2 | h2 <;> rw [h.1, h2] <;> decide
  · rw [h.1, h.2]; decide
  · rw [h.1, h.2]; decide
  · rw [h.1, h.2]; decide

theorem phase_no_jump (s : AppState) (e : Event)
    (h5 : phase s.step < 5) : phase (appStep s e).1.step ≤ 5 := by
  rw [show (appStep s e).1.step = (handle s e).1.step from
    runEffects_step_eq _ _]
  rcases handle_step_trans s e with h | h | h | h | h | h | h | h
  · rw [h]; omega
  · rw [h.2]; decide
  · rw [h.2]; decide
  · rw [h.2]; decide
  · rcases h.2 with h2 | h2 <;> rw [h2] <;> decide
  · rw [h.2]; decide
  · rw [h.1] at h5; simp [phase] at h5
  · rw [h.1] at h5; simp [phase] at h5

theorem phase_eq_five {a : AppStep} (h : phase a = 5) :
    a = AppStep.dynamicFollowupLoading := by
  cases a <;> simp [phase] at h ⊢

theorem phase_mono_trace (es : List Event) : ∀ s : AppState,
    phase s.step ≤ phase (runTrace s es).1.step := by
  induction es with
  | nil => intro s; exact le_refl _
  | cons e es ih =>
    intro s
    show phase s.step ≤ phase (runTrace (appStep s e).1 es).1.step
    exact le_trans (phase_mono s e) (ih _)

theorem runTrace_count (es : List Event) : ∀ s : AppState,
    (runTrace s es).2 =
      if phase s.step < 5 ∧ 5 ≤ phase (runTrace s es).1.step then 1
      else 0 := by
  induction es with
  | nil =>
    intro s
    show 0 = _
    rw [if_neg]
    rintro ⟨h1, h2⟩
    have hr : (runTrace s ([] : List Event)).1 = s := rfl
    rw [hr] at h2
    omega
  | cons e es ih =>
    intro s
    show countFG (appStep s e).2 + (runTrace (appStep s e).1 es).2 = _
    have hrt : (runTrace s (e :: es)).1 = (runTrace (appStep s e).1 es).1 :=
      rfl
    rw [countFG_appStep, ih, hrt]
    have hm1 : phase s.step ≤ phase (appStep s e).1.step := phase_mono s e
    have hm2 : phase (appStep s e).1.step ≤
        phase (runTrace (appStep s e).1 es).1.step := phase_mono_trace es _
    by_cases h1 : phase s.step < 5
    · by_cases h2 : (appStep s e).1.step = AppStep.dynamicFollowupLoading
      · have hsne : s.step ≠ AppStep.dynamicFollowupLoading := by
          intro hc
          rw [hc] at h1
          simp [phase] at h1
        have hp1 : phase (appStep s e).1.step = 5 := by rw [h2]; rfl
        rw [if_pos ⟨hsne, h2⟩, if_neg (by rw [hp1]; rintro ⟨hh, _⟩; omega),
          if_pos ⟨h1, by omega⟩]
      · have h1' : phase (appStep s e).1.step < 5 := by
          have hj := phase_no_jump s e h1
          have hne5 : phase (appStep s e).1.step ≠ 5 := fun hc =>
            h2 (phase_eq_five hc)
          omega
        rw [if_neg (by rintro ⟨_, hc⟩; exact h2 hc), Nat.zero_add]
        by_cases hsf : 5 ≤ phase (runTrace (appStep s e).1 es).1.step
        · rw [if_pos ⟨h1', hsf⟩, if_pos ⟨h1, hsf⟩]
        · rw [if_neg (fun hc => hsf hc.2), if_neg (fun hc => hsf hc.2)]
    · have hs1 : 5 ≤ phase (appStep s e).1.step := by omega
      have hnc : ¬ (s.step ≠ AppStep.dynamicFollowupLoading ∧
          (appStep s e).1.step = AppStep.dynamicFollowupLoading) := by
        rintro ⟨hne, hc⟩
        have hp1 : phase (appStep s e).1.step = 5 := by rw [hc]; rfl
        have hps : phase s.step = 5 := by omega
        exact hne (phase_eq_five hps)
      rw [if_neg hnc, if_neg (by rintro ⟨hh, _⟩; omega),
        if_neg (by rintro ⟨hh, _⟩; omega)]

theorem setPad_length (l : List String) (i : Nat) (v : String)
    (h : i < l.length) : (setPad l i v).length = l.length := by
  unfold setPad
  rw [if_pos h]
  exact List.length_set l i v

theorem setPad_getD_ne (l : List String) (i j : Nat) (v : String)
    (h : i < l.length) (hj : j ≠ i) :
    jsOrEmpty (setPad l i v) j = jsOrEmpty l j := by
  unfold setPad jsOrEmpty
  rw [if_pos h]
  simp [List.getD, List.getElem?_set_ne (Ne.symm hj)]

theorem staticLookup_pos (k : String) (qs : List String)
    (h : staticLookup k = some qs) : 0 < qs.length := by
  unfold staticLookup at h
  have hm : (k, qs) ∈ staticFollowUpQuestionsMapping :=
    (assoc_find_iff _ (by decide) k qs).mp h
  simp only [staticFollowUpQuestionsMapping, List.mem_cons,
    List.not_mem_nil, or_false, Prod.mk.injEq] at hm
  rcases hm with ⟨-, rfl⟩ | ⟨-, rfl⟩ | ⟨-, rfl⟩ | ⟨-, rfl⟩ | ⟨-, rfl⟩ <;>
    decide

theorem staticInv_runEffects (old s : AppState) (h : StaticInv s) :
    StaticInv (runEffects old s).1 := by
  unfold runEffects
  split
  · exact h
  · exact h

theorem staticInv_preserved (s : AppState) (e : Event) (h : StaticInv s) :
    StaticInv (appStep s e).1 := by
  refine staticInv_runEffects s (handle s e).1 ?_
  cases e with
  | overlayClick =>
    unfold handle
    dsimp only
    split_ifs <;> exact h
  | startClick =>
    unfold handle
    dsimp only
    split_ifs
    · intro hst
      simp at hst
    · exact h
  | takeProduced b =>
    unfold handle
    dsimp only
    split_ifs <;> exact h
  | transcriptionResult r =>
    unfold handle
    dsimp only
    split_ifs
    · cases r with
      | ok t =>
        intro hst
        simp at hst
      | error u => exact h
    · exact h
  | editTranscript t =>
    unfold handle
    dsimp only
    split_ifs <;> exact h
  | proceedClick =>
    unfold handle
    dsimp only
    split_ifs
    · intro hst
      simp at hst
    · exact h
  | extractionResult r =>
    unfold handle
    dsimp only
    split_ifs
    · cases r with
      | ok raw =>
        dsimp only
        cases hsl : staticLookup (cleanSymptomStr raw) with
        | some qs =>
          unfold StaticInv
          dsimp only
          intro _
          refine ⟨hsl, by simp, staticLookup_pos _ _ hsl, ?_⟩
          intro j hj
          omega
        | none =>
          intro hst
          simp at hst
      | error u => exact h
    · exact h
  | editStaticAnswer t =>
    unfold handle
    dsimp only
    split_ifs with hg
    · unfold StaticInv
      dsimp only
      intro _
      obtain ⟨hlk, hlen, hidx, hpre⟩ := h hg.1
      have hilt : s.currentStaticIndex < s.staticFollowUpAnswers.length := by
        omega
      refine ⟨hlk, ?_, hidx, ?_⟩
      · rw [setPad_length _ _ _ hilt]
        exact hlen
      · intro j hj
        rw [setPad_getD_ne _ _ _ _ hilt (by omega)]
        exact hpre j hj
    · exact h
  | nextStaticClick =>
    unfold handle handleNextStaticFollowUp
    dsimp only
    split_ifs with hg hb hlt
    · exact h
    · unfold StaticInv
      dsimp only
      intro _
      obtain ⟨hlk, hlen, hidx, hpre⟩ := h hg.1
      refine ⟨hlk, hlen, hlt, ?_⟩
      intro j hj
      by_cases hji : j = s.currentStaticIndex
      · subst hji
        simpa using hb
      · exact hpre j (by omega)
    · intro hst
      simp at hst
    · exact h
  | dynamicQuestionsResult r =>
    unfold handle
    dsimp only
    split_ifs
    · cases r with
      | ok qs =>
        intro hst
        simp at hst
      | error u => exact h
    · exact h
  | editDynamicAnswer t =>
    unfold handle
    dsimp only
    split_ifs <;> exact h
  | nextDynamicClick =>
    unfold handle handleNextDynamicFollowUp
    dsimp only
    split_ifs
    · exact h
    · exact h
    · intro hst
      simp at hst
    · exact h
  | guidelinesResult r =>
    unfold handle
    dsimp only
    split_ifs <;> cases r <;> exact h
  | closeErrorModal =>
    unfold handle
    dsimp only
    split_ifs <;> exact h

theorem reachable_staticInv {s : AppState} (h : Reachable s) :
    StaticInv s := by
  induction h with
  | init =>
    intro hst
    exact absurd hst (by decide)
  | step e hr ih => exact staticInv_preserved _ e ih

theorem emission_shape (s : AppState) (e : Event)
    (h : countFG (appStep s e).2 = 1) :
    (∃ raw, e = Event.extractionResult (Except.ok raw) ∧
      s.step = AppStep.followupLoading ∧ s.loading = true ∧
      staticLookup (cleanSymptomStr raw) = none) ∨
    (e = Event.nextStaticClick ∧ s.step = AppStep.followup ∧
      s.staticFollowUpQuestions ≠ [] ∧
      jsBlank (jsOrEmpty s.staticFollowUpAnswers s.currentStaticIndex) =
        false ∧
      ¬ (s.currentStaticIndex + 1 < s.staticFollowUpQuestions.length)) := by
  rw [countFG_appStep] at h
  have hcond : s.step ≠ AppStep.dynamicFollowupLoading ∧
      (appStep s e).1.step = AppStep.dynamicFollowupLoading := by
    by_contra hc
    rw [if_neg hc] at h
    exact absurd h (by decide)
  obtain ⟨hne, hdynA⟩ := hcond
  have hdyn : (handle s e).1.step = AppStep.dynamicFollowupLoading := by
    rw [← runEffects_step_eq s (handle s e).1]
    exact hdynA
  clear h hdynA
  cases e with
  | overlayClick =>
    unfold handle at hdyn
    dsimp only at hdyn
    split_ifs at hdyn <;> exact absurd hdyn hne
  | startClick =>
    unfold handle at hdyn
    dsimp only at hdyn
    split_ifs at hdyn
    all_goals first
      | exact absurd hdyn hne
      | simp at hdyn
  | takeProduced b =>
    unfold handle at hdyn
    dsimp only at hdyn
    split_ifs at hdyn <;> exact absurd hdyn hne
  | transcriptionResult r =>
    unfold handle at hdyn
    dsimp only at hdyn
    split_ifs at hdyn
    · cases r with
      | ok t => simp at hdyn
      | error u => exact absurd hdyn hne
    · exact absurd hdyn hne
  | editTranscript t =>
    unfold handle at hdyn
    dsimp only at hdyn
    split_ifs at hdyn <;> exact absurd hdyn hne
  | proceedClick =>
    unfold handle at hdyn
    dsimp only at hdyn
    split_ifs at hdyn
    all_goals first
      | exact absurd hdyn hne
      | simp at hdyn
  | extractionResult r =>
    unfold handle at hdyn
    dsimp only at hdyn
    split_ifs at hdyn with hg
    · cases r with
      | ok raw =>
        dsimp only at hdyn
        cases hsl : staticLookup (cleanSymptomStr raw) with
        | some qs =>
          rw [hsl] at hdyn
          simp at hdyn
        | none =>
          exact Or.inl ⟨raw, rfl, hg.1, hg.2, hsl⟩
      | error u => exact absurd hdyn hne
    · exact absurd hdyn hne
  | editStaticAnswer t =>
    unfold handle at hdyn
    dsimp only at hdyn
    split_ifs at hdyn <;> exact absurd hdyn hne
  | nextStaticClick =>
    unfold handle handleNextStaticFollowUp at hdyn
    dsimp only at hdyn
    split_ifs at hdyn with hg hb hlt
    · exact absurd hdyn hne
    · exact absurd hdyn hne
    · exact Or.inr ⟨rfl, hg.1, hg.2, by simpa using hb, hlt⟩
    · exact absurd hdyn hne
  | dynamicQuestionsResult r =>
    unfold handle at hdyn
    dsimp only at hdyn
    split_ifs at hdyn with hg
    · exact absurd hg.1 hne
    · exact absurd hdyn hne
  | editDynamicAnswer t =>
    unfold handle at hdyn
    dsimp only at hdyn
    split_ifs at hdyn <;> exact absurd hdyn hne
  | nextDynamicClick =>
    unfold handle handleNextDynamicFollowUp at hdyn
    dsimp only at hdyn
    split_ifs at hdyn
    all_goals first
      | exact absurd hdyn hne
      | simp at hdyn
  | guidelinesResult r =>
    unfold handle at hdyn
    dsimp only at hdyn
    split_ifs at hdyn
    · cases r with
      | ok g => exact absurd hdyn hne
      | error u => exact absurd hdyn hne
    · exact absurd hdyn hne
  | closeErrorModal =>
    unfold handle at hdyn
    dsimp only at hdyn
    split_ifs at hdyn <;> exact absurd hdyn hne

/-- C2: along every event trace from the initial session, the number of
`FollowUpGeneration` requests emitted is 1 exactly when the session has
reached the dynamic phase and 0 before — so the call is issued at most
once, exactly once in any session that reaches (or passes) the dynamic
questions, and never skipped; moreover from any reachable state an
emission happens only (a) on answering the last static question with the
looked-up static set fully non-blank, or (b) directly from
`followupLoading` when the extracted key has no static entry. -/
theorem followUpGeneration_once_and_gated :
    (∀ es : List Event,
      (runTrace initState es).2 =
        if 5 ≤ phase (runTrace initState es).1.step then 1 else 0) ∧
    (∀ es : List Event, (runTrace initState es).2 ≤ 1) ∧
    (∀ (s : AppState) (e : Event), Reachable s →
      countFG (appStep s e).2 = 1 →
      (s.step = AppStep.followup ∧
       staticLookup s.extractedSymptom = some s.staticFollowUpQuestions ∧
       s.staticFollowUpQuestions ≠ [] ∧
       s.staticFollowUpAnswers.length = s.staticFollowUpQuestions.length ∧
       (∀ j < s.staticFollowUpAnswers.length,
         jsBlank (jsOrEmpty s.staticFollowUpAnswers j) = false)) ∨
      (s.step = AppStep.followupLoading ∧
       ∃ raw, e = Event.extractionResult (Except.ok raw) ∧
         staticLookup (cleanSymptomStr raw) = none)) := by
  have hcount : ∀ es : List Event,
      (runTrace initState es).2 =
        if 5 ≤ phase (runTrace initState es).1.step then 1 else 0 := by
    intro es
    rw [runTrace_count es initState]
    have h0 : phase initState.step < 5 := by decide
    by_cases hf : 5 ≤ phase (runTrace initState es).1.step
    · rw [if_pos ⟨h0, hf⟩, if_pos hf]
    · rw [if_neg (fun hc => hf hc.2), if_neg hf]
  refine ⟨hcount, ?_, ?_⟩
  · intro es
    rw [hcount es]
    split_ifs <;> omega
  · intro s e hr hcnt
    rcases emission_shape s e hcnt with
      ⟨raw, rfl, hstep, hload, hsl⟩ | ⟨rfl, hstep, hqne, hblank, hnlt⟩
    · exact Or.inr ⟨hstep, raw, rfl, hsl⟩
    · obtain ⟨hlk, hlen, hidx, hpre⟩ := reachable_staticInv hr hstep
      refine Or.inl ⟨hstep, hlk, hqne, hlen, ?_⟩
      intro j hj
      by_cases hji : j = s.currentStaticIndex
      · subst hji
        exact hblank
      · exact hpre j (by omega)

set_option maxRecDepth 8000 in
theorem followUpGeneration_once_and_gated_witness :
    Reachable c2State ∧
    countFG (appStep c2State
      (Event.extractionResult (Except.ok "Dizziness"))).2 = 1 ∧
    ((c2State.step = AppStep.followup ∧
      staticLookup c2State.extractedSymptom =
        some c2State.staticFollowUpQuestions ∧
      c2State.staticFollowUpQuestions ≠ [] ∧
      c2State.staticFollowUpAnswers.length =
        c2State.staticFollowUpQuestions.length ∧
      (∀ j < c2State.staticFollowUpAnswers.length,
        jsBlank (jsOrEmpty c2State.staticFollowUpAnswers j) = false)) ∨
     (c2State.step = AppStep.followupLoading ∧
      ∃ raw, Event.extractionResult (Except.ok "Dizziness") =
          Event.extractionResult (Except.ok raw) ∧
        staticLookup (cleanSymptomStr raw) = none)) := by
  have hr : Reachable c2State :=
    Reachable.step Event.proceedClick
      (Reachable.step (Event.transcriptionResult
          (Except.ok "I feel dizzy all day"))
        (Reachable.step (Event.takeProduced blob0)
          (Reachable.step Event.startClick Reachable.init)))
  refine ⟨hr, by decide, ?_⟩
  exact followUpGeneration_once_and_gated.2.2 c2State
    (Event.extractionResult (Except.ok "Dizziness")) hr (by decide)
